import Mathlib

/-!
Verification development for the airlink-proxy repository
(`bin/monitor/monitor.py` and `bin/server/server.py`).

The Python source is shallowly embedded: pure fragments become Lean
functions, the sqlite-backed store becomes explicit state passing on a
list of rows, fallible steps return `Except`.  Python floats are
modelled as rationals; the one place the code's float handling is
observable — the `'%f'` formatting used to build INSERT statements,
which renders exactly six decimal places — is modelled by explicit
rounding (`roundHalfEven`, `fmtFloatVal`).
-/

namespace AirlinkProxy

/-! ## Reading (monitor.py, `@dataclass class Reading`, lines 84-114)

Every field of the Python dataclass may in fact hold `None` (the
normalizer `populate_record` inserts `None` for absent keys, and the
sanity check explicitly allows `None` for many fields), so each field
is an `Option`.  Python floats are modelled as `ℚ`. -/

structure Reading where
  did                       : Option String
  name                      : Option String
  ts                        : Option ℤ
  lsid                      : Option ℤ
  data_structure_type       : Option ℤ
  temp                      : Option ℚ
  hum                       : Option ℚ
  dew_point                 : Option ℚ
  wet_bulb                  : Option ℚ
  heat_index                : Option ℚ
  pm_1_last                 : Option ℤ
  pm_2p5_last               : Option ℤ
  pm_10_last                : Option ℤ
  pm_1                      : Option ℚ
  pm_2p5                    : Option ℚ
  pm_2p5_last_1_hour        : Option ℚ
  pm_2p5_last_3_hours       : Option ℚ
  pm_2p5_last_24_hours      : Option ℚ
  pm_2p5_nowcast            : Option ℚ
  pm_10                     : Option ℚ
  pm_10_last_1_hour         : Option ℚ
  pm_10_last_3_hours        : Option ℚ
  pm_10_last_24_hours       : Option ℚ
  pm_10_nowcast             : Option ℚ
  last_report_time          : Option ℤ
  pct_pm_data_last_1_hour   : Option ℤ
  pct_pm_data_last_3_hours  : Option ℤ
  pct_pm_data_nowcast       : Option ℤ
  pct_pm_data_last_24_hours : Option ℤ
  deriving DecidableEq

/-! ## Record kinds (monitor.py, `class RecordType`, lines 119-121) -/

namespace RecordType

def CURRENT : ℕ := 0
def ARCHIVE : ℕ := 1

end RecordType

/-! ## `%f` formatting

`Database.add_float` renders a float with Python's `'%f'`, which
produces exactly six digits after the decimal point, rounding the value
to the nearest multiple of 10⁻⁶ (ties to even).  `roundHalfEven q` is
that rounding of `q` to an integer; `fmtFloatVal q` is the rational
value denoted by the text `'%f' % q`. -/

def roundHalfEven (q : ℚ) : ℤ :=
  let f := ⌊q⌋
  if q - f < 1/2 then f
  else if q - f > 1/2 then f + 1
  else if f % 2 = 0 then f else f + 1

def fmtFloatVal (q : ℚ) : ℚ := (roundHalfEven (q * 1000000) : ℚ) / 1000000

/-- Zero-padded six-digit fraction part used by `pyFmtFloat`. -/
def pad6 (n : ℕ) : String :=
  let s := toString n
  String.mk (List.replicate (6 - s.length) '0') ++ s

/-- The text produced by Python `'%f' % q` (monitor.py line 197). -/
def pyFmtFloat (q : ℚ) : String :=
  let m := roundHalfEven (q * 1000000)
  let a := m.natAbs
  (if m < 0 then "-" else "") ++ toString (a / 1000000) ++ "." ++ pad6 (a % 1000000)

/-! ## INSERT statement construction
(monitor.py, `Database.add_string`/`add_int`/`add_float` lines 184-197
and `Database.build_insert_statement` lines 199-262)

The Python code builds the statement by string formatting: strings are
wrapped in double quotes (`'"%s"' % v`), integers rendered with `'%d'`,
floats with `'%f'`.  We collect the (column, literal) pairs in source
order; `build_insert_statement` renders exactly the SQL text the source
produces. -/

inductive SqlLit where
  | intL   (n : ℤ)
  | floatL (q : ℚ)
  | strL   (s : String)
  deriving DecidableEq

def renderLit : SqlLit → String
  | .intL n   => toString n
  | .floatL q => pyFmtFloat q
  | .strL s   => "\"" ++ s ++ "\""

/-- One optional column: present iff the reading's field is non-`None`
(the `if r.x is not None` guards of `build_insert_statement`). -/
def optCol {α : Type} (name : String) (mk : α → SqlLit) : Option α → List (String × SqlLit)
  | some v => [(name, mk v)]
  | none   => []

/-- The (column, literal) pairs of the INSERT built by
`Database.build_insert_statement`, in source order. -/
def insertColumns (record_type : ℕ) (timestamp : ℤ) (r : Reading) : List (String × SqlLit) :=
  [("record_type", SqlLit.intL record_type), ("timestamp", SqlLit.intL timestamp)]
  ++ optCol "did" SqlLit.strL r.did
  ++ optCol "name" SqlLit.strL r.name
  ++ optCol "ts" SqlLit.intL r.ts
  ++ optCol "lsid" SqlLit.intL r.lsid
  ++ optCol "data_structure_type" SqlLit.intL r.data_structure_type
  ++ optCol "temp" SqlLit.floatL r.temp
  ++ optCol "hum" SqlLit.floatL r.hum
  ++ optCol "dew_point" SqlLit.floatL r.dew_point
  ++ optCol "wet_bulb" SqlLit.floatL r.wet_bulb
  ++ optCol "heat_index" SqlLit.floatL r.heat_index
  ++ optCol "pm_1_last" SqlLit.intL r.pm_1_last
  ++ optCol "pm_2p5_last" SqlLit.intL r.pm_2p5_last
  ++ optCol "pm_10_last" SqlLit.intL r.pm_10_last
  ++ optCol "pm_1" SqlLit.floatL r.pm_1
  ++ optCol "pm_2p5" SqlLit.floatL r.pm_2p5
  ++ optCol "pm_2p5_last_1_hour" SqlLit.floatL r.pm_2p5_last_1_hour
  ++ optCol "pm_2p5_last_3_hours" SqlLit.floatL r.pm_2p5_last_3_hours
  ++ optCol "pm_2p5_last_24_hours" SqlLit.floatL r.pm_2p5_last_24_hours
  ++ optCol "pm_2p5_nowcast" SqlLit.floatL r.pm_2p5_nowcast
  ++ optCol "pm_10" SqlLit.floatL r.pm_10
  ++ optCol "pm_10_last_1_hour" SqlLit.floatL r.pm_10_last_1_hour
  ++ optCol "pm_10_last_3_hours" SqlLit.floatL r.pm_10_last_3_hours
  ++ optCol "pm_10_last_24_hours" SqlLit.floatL r.pm_10_last_24_hours
  ++ optCol "pm_10_nowcast" SqlLit.floatL r.pm_10_nowcast
  ++ optCol "last_report_time" SqlLit.intL r.last_report_time
  ++ optCol "pct_pm_data_last_1_hour" SqlLit.intL r.pct_pm_data_last_1_hour
  ++ optCol "pct_pm_data_last_3_hours" SqlLit.intL r.pct_pm_data_last_3_hours
  ++ optCol "pct_pm_data_nowcast" SqlLit.intL r.pct_pm_data_nowcast
  ++ optCol "pct_pm_data_last_24_hours" SqlLit.intL r.pct_pm_data_last_24_hours

/-- The exact SQL text built by `Database.build_insert_statement`
(monitor.py line 262): values are formatted into the statement text,
they are not bound as parameters. -/
def build_insert_statement (record_type : ℕ) (timestamp : ℤ) (r : Reading) : String :=
  let cols := insertColumns record_type timestamp r
  "INSERT INTO Reading (" ++ String.intercalate ", " (cols.map Prod.fst)
    ++ ") VALUES(" ++ String.intercalate ", " (cols.map (fun c => renderLit c.2)) ++ ");"

/-! ## Store state and execution of statements

The store is the list of rows of the single `Reading` table, in
insertion order.  Executing the INSERT parses the formatted literals
back: an `'%f'`-rendered float comes back rounded to six decimals
(`fmtFloatVal`), a double-quoted string containing a `"` makes the
statement a sqlite syntax error, and a duplicate `(record_type,
timestamp)` primary key is a constraint error. -/

structure Row where
  record_type : ℕ
  timestamp   : ℤ
  reading     : Reading
  deriving DecidableEq

inductive DbError where
  | sqlSyntax
  | pkConflict
  | typeErr
  deriving DecidableEq

/-- `true` iff the string renders into a well-formed double-quoted SQL
literal, i.e. it contains no double quote. -/
def quoteFree (o : Option String) : Bool :=
  match o with
  | none => true
  | some s => !(s.data.contains '"')

def readingQuoteFree (r : Reading) : Bool :=
  quoteFree r.did && quoteFree r.name

/-- The row value that the database holds after executing the INSERT:
each float field has passed through `'%f'` formatting. -/
def storedReading (r : Reading) : Reading :=
  { r with
    temp                 := r.temp.map fmtFloatVal
    hum                  := r.hum.map fmtFloatVal
    dew_point            := r.dew_point.map fmtFloatVal
    wet_bulb             := r.wet_bulb.map fmtFloatVal
    heat_index           := r.heat_index.map fmtFloatVal
    pm_1                 := r.pm_1.map fmtFloatVal
    pm_2p5               := r.pm_2p5.map fmtFloatVal
    pm_2p5_last_1_hour   := r.pm_2p5_last_1_hour.map fmtFloatVal
    pm_2p5_last_3_hours  := r.pm_2p5_last_3_hours.map fmtFloatVal
    pm_2p5_last_24_hours := r.pm_2p5_last_24_hours.map fmtFloatVal
    pm_2p5_nowcast       := r.pm_2p5_nowcast.map fmtFloatVal
    pm_10                := r.pm_10.map fmtFloatVal
    pm_10_last_1_hour    := r.pm_10_last_1_hour.map fmtFloatVal
    pm_10_last_3_hours   := r.pm_10_last_3_hours.map fmtFloatVal
    pm_10_last_24_hours  := r.pm_10_last_24_hours.map fmtFloatVal
    pm_10_nowcast        := r.pm_10_nowcast.map fmtFloatVal }

/-- Execute the INSERT statement built by `build_insert_statement`
against a table state. -/
def execInsert (db : List Row) (record_type : ℕ) (timestamp : ℤ) (r : Reading) :
    Except DbError (List Row) :=
  if readingQuoteFree r then
    if db.any (fun row => decide (row.record_type = record_type) && decide (row.timestamp = timestamp)) then
      .error .pkConflict
    else
      .ok (db ++ [⟨record_type, timestamp, storedReading r⟩])
  else .error .sqlSyntax

/-- `Database.save_reading` (monitor.py lines 264-273): builds the
INSERT, and within one transaction first deletes any Current row when
saving a Current record, then executes the INSERT.  The sqlite3
connection context manager commits on success and rolls back on an
exception, so a failed INSERT also undoes the DELETE. -/
def save_reading (db : List Row) (record_type : ℕ) (timestamp : ℤ) (r : Reading) :
    Except DbError (List Row) :=
  let db1 := if record_type = RecordType.CURRENT then
      db.filter (fun row => row.record_type ≠ RecordType.CURRENT)
    else db
  execInsert db1 record_type timestamp r

/-- `Database.save_current_reading` (lines 178-179): keys the row at the
reading's own `ts`; `'%d' % None` raises if `ts` is absent. -/
def save_current_reading (db : List Row) (r : Reading) : Except DbError (List Row) :=
  match r.ts with
  | some t => save_reading db RecordType.CURRENT t r
  | none => .error .typeErr

/-- `Database.save_archive_reading` (lines 181-182). -/
def save_archive_reading (db : List Row) (timestamp : ℤ) (r : Reading) :
    Except DbError (List Row) :=
  save_reading db RecordType.ARCHIVE timestamp r

/-- The WHERE clause of `Database.fetch_readings` (lines 317-319):
`record_type = %d AND timestamp > %d` plus the optional
`AND timestamp <= %d`. -/
def rowMatches (record_type : ℕ) (since_ts : ℤ) (max_ts : Option ℤ) (row : Row) : Bool :=
  decide (row.record_type = record_type) && decide (since_ts < row.timestamp) &&
    (match max_ts with | some m => decide (row.timestamp ≤ m) | none => true)

/-- `Database.fetch_readings` (lines 308-329): SELECT with the WHERE
clause above, `ORDER BY timestamp`, and an optional `LIMIT`. -/
def fetch_readings (db : List Row) (record_type : ℕ) (since_ts : ℤ)
    (max_ts : Option ℤ) (limit : Option ℕ) : List Reading :=
  let rows := (db.filter (rowMatches record_type since_ts max_ts)).insertionSort
    (fun a b => a.timestamp ≤ b.timestamp)
  let rows := match limit with | some l => rows.take l | none => rows
  rows.map Row.reading

/-- `Database.fetch_current_readings` (lines 275-276): note the
hard-coded `since_ts = 0`. -/
def fetch_current_readings (db : List Row) : List Reading :=
  fetch_readings db RecordType.CURRENT 0 none none

/-- `Database.fetch_archive_readings` (lines 297-298). -/
def fetch_archive_readings (db : List Row) (since_ts : ℤ) (max_ts : Option ℤ)
    (limit : Option ℕ) : List Reading :=
  fetch_readings db RecordType.ARCHIVE since_ts max_ts limit

/-! ## Scheduler (monitor.py, `Service.compute_next_event`, lines 692-701)

`Service.__init__` (lines 364-373) hard-codes `pollfreq_secs = 5`,
`pollfreq_offset = 5`, `arcint_secs = 60`; the computation itself is a
pure function of those fields and the wall clock, modelled here with the
fields as parameters.  `now` is the float `time.time()`, modelled as
`ℚ`; Python `int()` truncates toward zero. -/

inductive Event where
  | POLL
  | ARCHIVE
  deriving DecidableEq

/-- Python `int()` on a float: truncation toward zero. -/
def pytrunc (q : ℚ) : ℤ :=
  if q < 0 then -⌊-q⌋ else ⌊q⌋

structure SchedulerCfg where
  pollfreq_secs   : ℚ
  pollfreq_offset : ℚ
  arcint_secs     : ℚ
  deriving DecidableEq

/-- The values `Service.__init__` pins regardless of configuration. -/
def serviceDefaultCfg : SchedulerCfg := ⟨5, 5, 60⟩

/-- monitor.py line 694. -/
def next_poll_tick (cfg : SchedulerCfg) (now : ℚ) : ℚ :=
  (pytrunc (now / cfg.pollfreq_secs) : ℚ) * cfg.pollfreq_secs + cfg.pollfreq_secs

/-- monitor.py line 696. -/
def next_arc_tick (cfg : SchedulerCfg) (now : ℚ) : ℚ :=
  (pytrunc ((now - cfg.pollfreq_offset) / cfg.arcint_secs) : ℚ) * cfg.arcint_secs
    + cfg.arcint_secs + cfg.pollfreq_offset

/-- monitor.py lines 692-701: the emitted event and seconds to sleep. -/
def compute_next_event (cfg : SchedulerCfg) (now : ℚ) : Event × ℚ :=
  let event := if next_poll_tick cfg now = next_arc_tick cfg now then
      Event.ARCHIVE
    else Event.POLL
  (event, next_poll_tick cfg now - now)

/-! ## Startup checks (monitor.py, `start`, lines 955-1048)

The slice of `start` that decides whether the process comes up: the
`--test`/`--dump` exclusivity check, the required-option checks, and the
archive-interval multiple check (line 1026), all of which call
`parser.error` (which exits the process) on violation.  Only on success
is the `Service` constructed and the main loop entered. -/

structure StartConfig where
  hostname      : Option String
  db_file       : Option String
  pollfreq_secs : ℤ
  arcint_secs   : ℤ
  deriving DecidableEq

structure StartOptions where
  test : Bool
  dump : Bool
  deriving DecidableEq

inductive StartAction where
  | runTests
  | dumpDb
  | runService
  deriving DecidableEq

inductive StartError where
  | bothTestAndDump
  | missingHostname
  | missingDbFile
  | arcintNotMultiple
  deriving DecidableEq

/-- The check sequence of `start` (lines 1004-1042); an `.error` is a
`parser.error` call, which exits before the `Service` is constructed. -/
def startChecks (opts : StartOptions) (cfg : StartConfig) : Except StartError StartAction :=
  if opts.test && opts.dump then .error .bothTestAndDump
  else if opts.test then
    match cfg.hostname with
    | none => .error .missingHostname
    | some _ => .ok .runTests
  else if opts.dump then
    match cfg.db_file with
    | none => .error .missingDbFile
    | some _ => .ok .dumpDb
  else
    match cfg.hostname with
    | none => .error .missingHostname
    | some _ =>
      match cfg.db_file with
      | none => .error .missingDbFile
      | some _ =>
        if cfg.arcint_secs % cfg.pollfreq_secs ≠ 0 then .error .arcintNotMultiple
        else .ok .runService

/-! ## JSON payloads

A device payload (`r.json()` in `Service.collect_data`) is a JSON
value.  Python exceptions raised while poking at it (`KeyError`,
`TypeError`, `IndexError`) are modelled with `Except`; `collect_data`
catches them all at one boundary (monitor.py line 453). -/

inductive JVal where
  | null
  | jbool  (b : Bool)
  | jint   (n : ℤ)
  | jfloat (q : ℚ)
  | jstr   (s : String)
  | jarr   (l : List JVal)
  | jobj   (l : List (String × JVal))

inductive PyErr where
  | keyError
  | typeError
  | indexError
  deriving DecidableEq

/-- Python `j[k]` for a string key. -/
def JVal.getKey : JVal → String → Except PyErr JVal
  | .jobj l, k =>
    match l.find? (fun p => p.1 == k) with
    | some p => .ok p.2
    | none => .error .keyError
  | _, _ => .error .typeError

/-- Python `j[i]` for a non-negative integer index (only index 0 is used
by the source). -/
def JVal.getIdx : JVal → ℕ → Except PyErr JVal
  | .jarr l, i =>
    match l.get? i with
    | some v => .ok v
    | none => .error .indexError
  | _, _ => .error .typeError

/-- Python `j[k] = v` on a dict: replaces the value of an existing key,
otherwise appends the new pair. -/
def JVal.setKey : JVal → String → JVal → Except PyErr JVal
  | .jobj l, k, v =>
    if l.any (fun p => p.1 == k) then
      .ok (.jobj (l.map (fun p => if p.1 == k then (k, v) else p)))
    else
      .ok (.jobj (l ++ [(k, v)]))
  | _, _, _ => .error .typeError

/-- Python `j[i] = v` on a list. -/
def JVal.setIdx : JVal → ℕ → JVal → Except PyErr JVal
  | .jarr l, i, v =>
    if i < l.length then .ok (.jarr (l.set i v)) else .error .indexError
  | _, _, _ => .error .typeError

/-- Python `k in j` (used at monitor.py line 409 and in
`populate_record`); only dict and list containers are modelled, which
covers every payload the claims quantify over. -/
def pyIn (k : String) : JVal → Except PyErr Bool
  | .jobj l => .ok (l.any (fun p => p.1 == k))
  | .jarr l => .ok (l.any (fun v => match v with | .jstr s => s == k | _ => false))
  | _ => .error .typeError

/-- Python `==` between a JSON value and an integer literal: numeric
types compare numerically (`5.0 == 5`, `True == 1`), everything else is
unequal. -/
def JVal.eqInt (v : JVal) (n : ℤ) : Bool :=
  match v with
  | .jint m => decide (m = n)
  | .jbool b => decide ((if b then (1 : ℤ) else 0) = n)
  | .jfloat q => decide (q = (n : ℚ))
  | _ => false

/-- `'%d' % v`: accepts numeric values, raises `TypeError` otherwise. -/
def pyFmtIntArg : JVal → Except PyErr Unit
  | .jint _ => .ok ()
  | .jbool _ => .ok ()
  | .jfloat _ => .ok ()
  | _ => .error .typeError

/-- Numeric coercion used by `time.time() - time_of_reading`
(monitor.py line 426): raises `TypeError` on non-numbers. -/
def pyToFloat : JVal → Except PyErr ℚ
  | .jint n => .ok (n : ℚ)
  | .jfloat q => .ok q
  | .jbool b => .ok (if b then 1 else 0)
  | _ => .error .typeError

/-- Best-effort rendering for log/message interpolation of a JSON value
(`'%s' % v`); only the empty-vs-nonempty distinction is ever observed by
the claims. -/
def pyRepr : JVal → String
  | .null => "None"
  | .jbool b => if b then "True" else "False"
  | .jint n => toString n
  | .jfloat q => pyFmtFloat q
  | .jstr s => s
  | .jarr _ => "[...]"
  | .jobj _ => "{...}"

/-- `j['data']['conditions'][0]`. -/
def getCond0 (j : JVal) : Except PyErr JVal := do
  let d ← j.getKey "data"
  let c ← d.getKey "conditions"
  c.getIdx 0

def getCond0Key (j : JVal) (k : String) : Except PyErr JVal := do
  (← getCond0 j).getKey k

/-- `j['data']['conditions'][0][k] = v`, functionally. -/
def setCond0Key (j : JVal) (k : String) (v : JVal) : Except PyErr JVal := do
  let d ← j.getKey "data"
  let c ← d.getKey "conditions"
  let c0 ← c.getIdx 0
  let c0 ← c0.setKey k v
  let c ← c.setIdx 0 c0
  let d ← d.setKey "conditions" c
  j.setKey "data" d

/-! ## Schema upgrade
(`Service.convert_data_structure_type_5_to_6`, monitor.py lines 606-625)

Each legacy group is moved with three mutations: read the legacy key,
write the canonical key, null the legacy key.  The body is wrapped in a
try/except that logs and returns, so an exception (a missing legacy
key) leaves the payload with all mutations completed so far and skips
the rest, including the `data_structure_type = 6` assignment. -/

/-- One `pm_10*`/`pm_10p0*` group move. -/
def convStep (j : JVal) (dst src : String) : Except PyErr JVal := do
  let v ← getCond0Key j src
  let j ← setCond0Key j dst v
  setCond0Key j src JVal.null

def convertPairs : List (String × String) :=
  [("pm_10", "pm_10p0"),
   ("pm_10_last_1_hour", "pm_10p0_last_1_hour"),
   ("pm_10_last_3_hours", "pm_10p0_last_3_hours"),
   ("pm_10_last_24_hours", "pm_10p0_last_24_hours"),
   ("pm_10_nowcast", "pm_10p0_nowcast")]

def convertGo (j : JVal) : List (String × String) → JVal
  | [] =>
    match setCond0Key j "data_structure_type" (JVal.jint 6) with
    | .ok j2 => j2
    | .error _ => j
  | (dst, src) :: rest =>
    match convStep j dst src with
    | .ok j2 => convertGo j2 rest
    | .error _ => j

def convert_data_structure_type_5_to_6 (j : JVal) : JVal :=
  convertGo j convertPairs

/-! ## Sanity check
(`Service.is_type` lines 627-642 and `Service.is_sane` lines 644-690) -/

inductive PyType where
  | tdict
  | tstr
  | tint
  | tfloat
  | tlist
  deriving DecidableEq

/-- Python `isinstance`; note `bool` is a subclass of `int`, and `int`
is not an instance of `float`. -/
def isinstance (v : JVal) : PyType → Bool
  | .tdict => match v with | .jobj _ => true | _ => false
  | .tstr => match v with | .jstr _ => true | _ => false
  | .tint => match v with | .jint _ => true | .jbool _ => true | _ => false
  | .tfloat => match v with | .jfloat _ => true | _ => false
  | .tlist => match v with | .jarr _ => true | _ => false

/-- `Service.is_type`: a failed lookup (`KeyError`, or a `TypeError`
from subscripting a non-dict) is caught and yields `False`. -/
def is_type (j : JVal) (t : PyType) (name : String) (none_ok : Bool) : Bool :=
  match j.getKey name with
  | .error _ => false
  | .ok JVal.null => none_ok
  | .ok x => isinstance x t

def intFields : List String :=
  ["pm_1_last", "pm_2p5_last", "pm_10_last", "last_report_time",
   "pct_pm_data_last_1_hour", "pct_pm_data_last_3_hours",
   "pct_pm_data_nowcast", "pct_pm_data_last_24_hours"]

def weatherFloatFields : List String :=
  ["temp", "hum", "dew_point", "wet_bulb", "heat_index"]

def pmFloatFields : List String :=
  ["pm_1", "pm_2p5", "pm_2p5_last_1_hour",
   "pm_2p5_last_3_hours", "pm_2p5_last_24_hours", "pm_2p5_nowcast",
   "pm_10", "pm_10_last_1_hour", "pm_10_last_3_hours",
   "pm_10_last_24_hours", "pm_10_nowcast"]

def missingMsg (name : String) : String :=
  "Missing or malformed \"" ++ name ++ "\" field"

/-- `Service.is_sane` (monitor.py lines 644-690).  The line-646 lookup
`j['error']` is an uncaught subscript and may raise. -/
def is_sane (j : JVal) : Except PyErr (Bool × String) := do
  match (← j.getKey "error") with
  | JVal.null =>
    if !(is_type j .tdict "data" false) then
      return (false, "Missing or malformed \"data\" field")
    else do
      let data ← j.getKey "data"
      if !(is_type data .tstr "name" false) then
        return (false, missingMsg "name")
      else if !(is_type data .tint "ts" false) then
        return (false, missingMsg "ts")
      else if !(is_type data .tlist "conditions" false) then
        return (false, missingMsg "conditions")
      else do
        let conds ← data.getKey "conditions"
        let n ← match conds with
          | .jarr l => pure l.length
          | _ => Except.error PyErr.typeError
        if n = 0 then
          return (false, "Expected one element in conditions array.")
        else do
          let c0 ← conds.getIdx 0
          if !(is_type c0 .tint "data_structure_type" false) then
            return (false, missingMsg "data_structure_type")
          else do
            let dst ← c0.getKey "data_structure_type"
            if !(dst.eqInt 6) then
              return (false, "Expected data_structure_type of 6 (or type 5 auto converted to 6.")
            else
              match intFields.find? (fun nm => !(is_type c0 .tint nm true)) with
              | some nm => return (false, missingMsg nm)
              | none =>
                if !(is_type c0 .tint "lsid" true) then
                  return (false, missingMsg "lsid")
                else
                  match weatherFloatFields.find? (fun nm => !(is_type c0 .tfloat nm false)) with
                  | some nm => return (false, missingMsg nm)
                  | none =>
                    match pmFloatFields.find? (fun nm => !(is_type c0 .tfloat nm true)) with
                    | some nm => return (false, missingMsg nm)
                    | none => return (true, "")
  | e => return (false, "Error: " ++ pyRepr e)

/-! ## Normalization (`Service.populate_record`, monitor.py lines 465-558)

Each field is read with the `if key in container` pattern of
`get_and_update_missed_data(_conditions)`: a missing key becomes `None`
(and is logged as missed, not fatal).  The values land in the `Reading`
dataclass unchanged; a value of an unexpected primitive type cannot
occur for the payloads quantified over here (they have passed
`is_sane`, and the identity fields are well-typed), and is modelled as
a `typeError`. -/

def tryGetKey (container : JVal) (k : String) : Except PyErr JVal := do
  if (← pyIn k container) then container.getKey k else pure JVal.null

def JVal.asStrOpt : JVal → Except PyErr (Option String)
  | .null => .ok none
  | .jstr s => .ok (some s)
  | _ => .error .typeError

def JVal.asIntOpt : JVal → Except PyErr (Option ℤ)
  | .null => .ok none
  | .jint n => .ok (some n)
  | .jbool b => .ok (some (if b then 1 else 0))
  | _ => .error .typeError

def JVal.asFloatOpt : JVal → Except PyErr (Option ℚ)
  | .null => .ok none
  | .jfloat q => .ok (some q)
  | _ => .error .typeError

def populate_record (j : JVal) : Except PyErr Reading := do
  let data ← j.getKey "data"
  let c0 ← getCond0 j
  let did ← (← tryGetKey data "did").asStrOpt
  let name ← (← tryGetKey data "name").asStrOpt
  let ts ← (← tryGetKey data "ts").asIntOpt
  let lsid ← (← tryGetKey c0 "lsid").asIntOpt
  let data_structure_type ← (← tryGetKey c0 "data_structure_type").asIntOpt
  let last_report_time ← (← tryGetKey c0 "last_report_time").asIntOpt
  let temp ← (← tryGetKey c0 "temp").asFloatOpt
  let hum ← (← tryGetKey c0 "hum").asFloatOpt
  let dew_point ← (← tryGetKey c0 "dew_point").asFloatOpt
  let wet_bulb ← (← tryGetKey c0 "wet_bulb").asFloatOpt
  let heat_index ← (← tryGetKey c0 "heat_index").asFloatOpt
  let pct_pm_data_last_1_hour ← (← tryGetKey c0 "pct_pm_data_last_1_hour").asIntOpt
  let pct_pm_data_last_3_hours ← (← tryGetKey c0 "pct_pm_data_last_3_hours").asIntOpt
  let pct_pm_data_nowcast ← (← tryGetKey c0 "pct_pm_data_nowcast").asIntOpt
  let pct_pm_data_last_24_hours ← (← tryGetKey c0 "pct_pm_data_last_24_hours").asIntOpt
  let pm_1 ← (← tryGetKey c0 "pm_1").asFloatOpt
  let pm_1_last ← (← tryGetKey c0 "pm_1_last").asIntOpt
  let pm_2p5_last ← (← tryGetKey c0 "pm_2p5_last").asIntOpt
  let pm_2p5 ← (← tryGetKey c0 "pm_2p5").asFloatOpt
  let pm_2p5_last_1_hour ← (← tryGetKey c0 "pm_2p5_last_1_hour").asFloatOpt
  let pm_2p5_last_3_hours ← (← tryGetKey c0 "pm_2p5_last_3_hours").asFloatOpt
  let pm_2p5_last_24_hours ← (← tryGetKey c0 "pm_2p5_last_24_hours").asFloatOpt
  let pm_2p5_nowcast ← (← tryGetKey c0 "pm_2p5_nowcast").asFloatOpt
  let pm_10_last ← (← tryGetKey c0 "pm_10_last").asIntOpt
  let pm_10 ← (← tryGetKey c0 "pm_10").asFloatOpt
  let pm_10_last_1_hour ← (← tryGetKey c0 "pm_10_last_1_hour").asFloatOpt
  let pm_10_last_3_hours ← (← tryGetKey c0 "pm_10_last_3_hours").asFloatOpt
  let pm_10_last_24_hours ← (← tryGetKey c0 "pm_10_last_24_hours").asFloatOpt
  let pm_10_nowcast ← (← tryGetKey c0 "pm_10_nowcast").asFloatOpt
  return { did, name, ts, lsid, data_structure_type, temp, hum, dew_point,
           wet_bulb, heat_index, pm_1_last, pm_2p5_last, pm_10_last, pm_1,
           pm_2p5, pm_2p5_last_1_hour, pm_2p5_last_3_hours,
           pm_2p5_last_24_hours, pm_2p5_nowcast, pm_10, pm_10_last_1_hour,
           pm_10_last_3_hours, pm_10_last_24_hours, pm_10_nowcast,
           last_report_time, pct_pm_data_last_1_hour,
           pct_pm_data_last_3_hours, pct_pm_data_nowcast,
           pct_pm_data_last_24_hours }

/-! ## The fetch pipeline on a parsed payload
(`Service.collect_data`, monitor.py lines 403-463)

Everything from the error-field check to the staleness check sits in
one try block whose handler turns any exception into "no reading"
(line 453-455).  `Outcome` names the distinct exits; `collect_data`'s
caller only observes `Option Reading`, recovered by
`outcomeToReading`. -/

inductive Outcome where
  | ok (r : Reading)
  | deviceError
  | insane (msg : String)
  | bootArtifact
  | stale
  | exn (e : PyErr)
  deriving DecidableEq

/-- The try block of `collect_data`, given the wall clock `now`
(`time.time()` at line 426) and the parsed payload. -/
def collectBody (now : ℚ) (j : JVal) : Except PyErr Outcome := do
  -- line 409: if 'error' in j and j['error'] is not None
  let hasErr ← pyIn "error" j
  let deviceErr ←
    if hasErr then do
      match (← j.getKey "error") with
      | JVal.null => pure false
      | e => do
        -- lines 410-413: error['code'], error['message'], '%d' % code
        let code ← e.getKey "code"
        let _ ← e.getKey "message"
        let _ ← pyFmtIntArg code
        pure true
    else pure false
  if deviceErr then
    return Outcome.deviceError
  else do
    -- lines 415-417: upgrade legacy schema in place
    let dst ← getCond0Key j "data_structure_type"
    let j := if dst.eqInt 5 then convert_data_structure_type_5_to_6 j else j
    -- lines 418-422: sanity check
    let (sane, msg) ← is_sane j
    if !sane then
      return Outcome.insane msg
    else do
      -- lines 423-452: staleness / boot heuristic
      let tor ← getCond0Key j "last_report_time"
      let t ← pyToFloat tor
      if now - t > 60 then
        match (← getCond0Key j "pm_1") with
        | JVal.null => return Outcome.bootArtifact
        | _ => return Outcome.stale
      else
        Outcome.ok <$> populate_record j

/-- `collect_data` with the exception boundary applied. -/
def collectOutcome (now : ℚ) (j : JVal) : Outcome :=
  match collectBody now j with
  | .ok o => o
  | .error e => Outcome.exn e

def outcomeToReading : Outcome → Option Reading
  | .ok r => some r
  | _ => none

/-- What `collect_data` returns to its caller for a parsed payload. -/
def collect_data_result (now : ℚ) (j : JVal) : Option Reading :=
  outcomeToReading (collectOutcome now j)

/-! ## Query server request parsing
(server.py, `Handler.parse_args` lines 63-72 and
`Handler.parse_requestline` lines 74-130)

Python strings are modelled as `List Char`; `pySplit` is `str.split`
with a one-character separator, `pyIntParse` is `int(s)` on a string. -/

/-- `s.split(sep)` for a single-character separator: `""` splits to
`[""]`, separators at the ends produce empty pieces. -/
def pySplit (sep : Char) : List Char → List (List Char)
  | [] => [[]]
  | c :: cs =>
    let r := pySplit sep cs
    if c = sep then [] :: r
    else
      match r with
      | h :: t => (c :: h) :: t
      | [] => [[c]]

def isPySpace (c : Char) : Bool :=
  c = ' ' || c = '\t' || c = '\n' || c = '\r'

def stripSpaces (s : List Char) : List Char :=
  ((s.dropWhile isPySpace).reverse.dropWhile isPySpace).reverse

/-- Digit run with single underscores allowed between digits, after the
first digit (Python 3 numeric literals accepted by `int`). -/
def digitsTail : List Char → Bool
  | [] => true
  | [c] => c.isDigit
  | c :: c2 :: rest =>
    if c = '_' then c2.isDigit && digitsTail rest
    else c.isDigit && digitsTail (c2 :: rest)

def digitsOk : List Char → Bool
  | [] => false
  | c :: rest => c.isDigit && digitsTail rest

def digitsVal (s : List Char) : ℕ :=
  s.foldl (fun acc c => if c = '_' then acc else acc * 10 + (c.toNat - 48)) 0

/-- Python `int(s)` on a string: strips whitespace, allows one sign,
then digits (with underscores); anything else raises `ValueError`. -/
def pyIntParse (s0 : List Char) : Option ℤ :=
  match stripSpaces s0 with
  | [] => none
  | c :: rest =>
    if c = '-' then (if digitsOk rest then some (-(digitsVal rest : ℤ)) else none)
    else if c = '+' then (if digitsOk rest then some (digitsVal rest : ℤ) else none)
    else (if digitsOk (c :: rest) then some (digitsVal (c :: rest) : ℤ) else none)

inductive RequestType where
  | ERROR
  | GET_VERSION
  | GET_EARLIEST_TIMESTAMP
  | FETCH_CURRENT_RECORD
  | FETCH_ARCHIVE_RECORDS
  deriving DecidableEq

structure Request where
  request_type : RequestType
  since_ts     : Option ℤ
  max_ts       : Option ℤ
  limit        : Option ℤ
  error        : Option (List Char)
  request      : List Char
  deriving DecidableEq

/-- Association-list model of the Python dict built by `parse_args`. -/
def dictInsert (d : List (List Char × List Char)) (k v : List Char) :
    List (List Char × List Char) :=
  if d.any (fun p => p.1 = k) then
    d.map (fun p => if p.1 = k then (k, v) else p)
  else d ++ [(k, v)]

def dictFind (d : List (List Char × List Char)) (k : List Char) : Option (List Char) :=
  (d.find? (fun p => decide (p.1 = k))).map (fun p => p.2)

/-- `Handler.parse_args` (server.py lines 63-72): splits the query
string on commas — not on ampersands — then each piece on `=`, keeping
pieces `[0]` and `[1]`. -/
def parse_args (args_in : List Char) : List (List Char × List Char) :=
  (pySplit ',' args_in).foldl
    (fun args_dict arg =>
      if arg.contains '=' then
        match pySplit '=' arg with
        | k :: v :: _ => if k ≠ [] then dictInsert args_dict k v else args_dict
        | _ => args_dict
      else args_dict)
    []

/-- `Handler.parse_requestline` (server.py lines 74-130).  `none`
corresponds to the uncaught `IndexError` of `requestline.split(' ')[1]`
on a malformed request line.  The source's line-100 guard
`cmd != RequestType.ERROR` compares a string with an enum and is
always true, so argument parsing always runs. -/
def parse_requestline (requestline : List Char) : Option Request :=
  match (pySplit ' ' requestline).get? 1 with
  | none => none
  | some request =>
    let (cmd, args) :=
      if request.contains '?' then
        ((pySplit '?' request).headD [], (pySplit '?' request).getD 1 [])
      else (request, ([] : List Char))
    let (request_type, error) :=
      if cmd = "/get-version".data then (RequestType.GET_VERSION, none)
      else if cmd = "/get-earliest-timestamp".data then (RequestType.GET_EARLIEST_TIMESTAMP, none)
      else if cmd = "/v1/current_conditions".data then (RequestType.FETCH_CURRENT_RECORD, none)
      else if cmd = "/fetch-archive-records".data then (RequestType.FETCH_ARCHIVE_RECORDS, none)
      else if cmd = "/".data then
        (RequestType.ERROR, some "A command must be specified.".data)
      else
        (RequestType.ERROR, some ("Unknown command: ".data ++ cmd ++ ".".data))
    let args_dict := parse_args args
    let (request_type, error, since_ts, max_ts, limit) :=
      if request_type = RequestType.FETCH_ARCHIVE_RECORDS then
        match dictFind args_dict "since_ts".data with
        | some sv =>
          let (request_type, error, since_ts) :=
            match pyIntParse sv with
            | some n => (request_type, error, some n)
            | none =>
              (RequestType.ERROR,
               some ("The since_ts argument must be an integer, found: '".data
                 ++ sv ++ "'.".data),
               none)
          let (request_type, error, max_ts) :=
            match dictFind args_dict "max_ts".data with
            | some mv =>
              match pyIntParse mv with
              | some n => (request_type, error, some n)
              | none =>
                (RequestType.ERROR,
                 some ("The max_ts argument must be an integer, found: '".data
                   ++ mv ++ "'.".data),
                 none)
            | none => (request_type, error, none)
          let (request_type, error, limit) :=
            match dictFind args_dict "limit".data with
            | some lv =>
              match pyIntParse lv with
              | some n => (request_type, error, some n)
              | none =>
                (RequestType.ERROR,
                 some ("The limit argument must be an integer, found: '".data
                   ++ lv ++ "'.".data),
                 none)
            | none => (request_type, error, none)
          (request_type, error, since_ts, max_ts, limit)
        | none =>
          (RequestType.ERROR,
           some "fetch-archive-records requires since_ts argument".data,
           none, none, none)
      else (request_type, error, none, none, none)
    some { request_type, since_ts, max_ts, limit, error, request }

/-! ## Lemmas about `%f` rounding -/

lemma roundHalfEven_intCast (n : ℤ) : roundHalfEven (n : ℚ) = n := by
  norm_num [roundHalfEven]

lemma fmtFloatVal_of_den_one {q : ℚ} (h : (q * 1000000).den = 1) : fmtFloatVal q = q := by
  have h2 : ((q * 1000000).num : ℚ) = q * 1000000 := (Rat.den_eq_one_iff _).mp h
  unfold fmtFloatVal
  rw [← h2, roundHalfEven_intCast, h2]
  exact mul_div_cancel_right₀ q (by norm_num)

/-- `true` iff the field value, when present, is an exact multiple of
10⁻⁶ — i.e. survives `'%f'` formatting unchanged. -/
def sixDec (o : Option ℚ) : Bool :=
  match o with
  | none => true
  | some q => decide ((q * 1000000).den = 1)

lemma sixDec_map {o : Option ℚ} (h : sixDec o = true) : o.map fmtFloatVal = o := by
  cases o with
  | none => rfl
  | some q =>
    simp only [sixDec, decide_eq_true_eq] at h
    simp [fmtFloatVal_of_den_one h]

/-- All sixteen float columns of the reading survive `'%f'`. -/
def readingSixDec (r : Reading) : Bool :=
  sixDec r.temp && sixDec r.hum && sixDec r.dew_point && sixDec r.wet_bulb &&
  sixDec r.heat_index && sixDec r.pm_1 && sixDec r.pm_2p5 &&
  sixDec r.pm_2p5_last_1_hour && sixDec r.pm_2p5_last_3_hours &&
  sixDec r.pm_2p5_last_24_hours && sixDec r.pm_2p5_nowcast && sixDec r.pm_10 &&
  sixDec r.pm_10_last_1_hour && sixDec r.pm_10_last_3_hours &&
  sixDec r.pm_10_last_24_hours && sixDec r.pm_10_nowcast

lemma storedReading_eq_self {r : Reading} (h : readingSixDec r = true) :
    storedReading r = r := by
  unfold readingSixDec at h
  simp only [Bool.and_eq_true] at h
  obtain ⟨⟨⟨⟨⟨⟨⟨⟨⟨⟨⟨⟨⟨⟨⟨h1, h2⟩, h3⟩, h4⟩, h5⟩, h6⟩, h7⟩, h8⟩, h9⟩, h10⟩,
    h11⟩, h12⟩, h13⟩, h14⟩, h15⟩, h16⟩ := h
  unfold storedReading
  rw [sixDec_map h1, sixDec_map h2, sixDec_map h3, sixDec_map h4, sixDec_map h5,
    sixDec_map h6, sixDec_map h7, sixDec_map h8, sixDec_map h9, sixDec_map h10,
    sixDec_map h11, sixDec_map h12, sixDec_map h13, sixDec_map h14,
    sixDec_map h15, sixDec_map h16]

/-! ## C1: archive save/fetch round trip -/

/-- **C1** (amended).  For a bucket timestamp `t > 0` and a reading
whose string fields contain no double quote and whose float fields are
exact multiples of 10⁻⁶, `saveArchive(t, R)` into an empty store
followed by `fetchArchive(0)` yields exactly one record, equal to `R`.
The positivity and formatting restrictions are forced by the source:
values are formatted into the SQL text (`'%f'` keeps six decimals,
strings are spliced between double quotes) rather than bound as typed
parameters, and `fetchArchive` hard-codes `timestamp > 0`. -/
theorem c1_saveArchive_fetchArchive_roundtrip (t : ℤ) (r : Reading)
    (ht : 0 < t) (hq : readingQuoteFree r = true) (h6 : readingSixDec r = true) :
    save_archive_reading [] t r = .ok [⟨RecordType.ARCHIVE, t, storedReading r⟩] ∧
    fetch_archive_readings [⟨RecordType.ARCHIVE, t, storedReading r⟩] 0 none none = [r] := by
  constructor
  · simp [save_archive_reading, save_reading, execInsert, hq,
      RecordType.ARCHIVE, RecordType.CURRENT]
  · simp [fetch_archive_readings, fetch_readings, rowMatches,
      RecordType.ARCHIVE, ht, List.insertionSort, List.orderedInsert,
      storedReading_eq_self h6]

/-- A reading whose `pm_1` needs seven decimal places. -/
def sevenDecReading : Reading :=
  { did := some "abc", name := some "foo", ts := some 100, lsid := none,
    data_structure_type := some 6, temp := none, hum := none, dew_point := none,
    wet_bulb := none, heat_index := none, pm_1_last := none, pm_2p5_last := none,
    pm_10_last := none, pm_1 := some (1234567/10000000), pm_2p5 := none,
    pm_2p5_last_1_hour := none, pm_2p5_last_3_hours := none,
    pm_2p5_last_24_hours := none, pm_2p5_nowcast := none, pm_10 := none,
    pm_10_last_1_hour := none, pm_10_last_3_hours := none,
    pm_10_last_24_hours := none, pm_10_nowcast := none, last_report_time := none,
    pct_pm_data_last_1_hour := none, pct_pm_data_last_3_hours := none,
    pct_pm_data_nowcast := none, pct_pm_data_last_24_hours := none }

/-- **C1** (counterexample).  For the reading with
`pm_1 = 0.1234567`, the INSERT statement is literal SQL text with the
value formatted into it — rounded by `'%f'` to `0.123457` — so
`saveArchive(100, R)` followed by `fetchArchive(0)` returns one record
that is **not** equal to `R`: the store is written via string
formatting, not via typed parameter binding, and values needing more
than six decimals do not round-trip. -/
theorem c1_counterexample :
    build_insert_statement RecordType.ARCHIVE 100 sevenDecReading =
      "INSERT INTO Reading (record_type, timestamp, did, name, ts, data_structure_type, pm_1) VALUES(1, 100, \"abc\", \"foo\", 100, 6, 0.123457);" ∧
    save_archive_reading [] 100 sevenDecReading =
      .ok [⟨RecordType.ARCHIVE, 100, storedReading sevenDecReading⟩] ∧
    fetch_archive_readings [⟨RecordType.ARCHIVE, 100, storedReading sevenDecReading⟩]
      0 none none ≠ [sevenDecReading] := by
  refine ⟨?_, ?_, ?_⟩
  · have hr : roundHalfEven ((1234567/10000000 : ℚ) * 1000000) = 123457 := by
      norm_num [roundHalfEven]
    simp only [build_insert_statement, insertColumns, sevenDecReading, optCol,
      renderLit, pyFmtFloat, pad6, List.cons_append, List.nil_append,
      List.map_cons, List.map_nil, hr]
    decide
  · simp [save_archive_reading, save_reading, execInsert, readingQuoteFree,
      quoteFree, sevenDecReading, RecordType.ARCHIVE, RecordType.CURRENT]
  · have hr : fmtFloatVal (1234567/10000000 : ℚ) = 123457/1000000 := by
      norm_num [fmtFloatVal, roundHalfEven]
    simp [fetch_archive_readings, fetch_readings, rowMatches, RecordType.ARCHIVE,
      List.insertionSort, List.orderedInsert, storedReading, sevenDecReading, hr]
    norm_num

/-- A quote-free, six-decimal reading used to witness the amended C1. -/
def roundTripReading : Reading :=
  { did := some "001D0A100214", name := some "airlink", ts := some 1600657321,
    lsid := some 347825, data_structure_type := some 6,
    temp := some (741/10), hum := some (628/10), dew_point := some (606/10),
    wet_bulb := some (642/10), heat_index := some (747/10),
    pm_1_last := some 11, pm_2p5_last := some 14, pm_10_last := some 17,
    pm_1 := some (1168/100), pm_2p5 := some (1555/100),
    pm_2p5_last_1_hour := some (1935/100), pm_2p5_last_3_hours := some (2054/100),
    pm_2p5_last_24_hours := some (1859/100), pm_2p5_nowcast := some (2125/100),
    pm_10 := some (1728/100), pm_10_last_1_hour := some (233/10),
    pm_10_last_3_hours := some (2464/100), pm_10_last_24_hours := some (2271/100),
    pm_10_nowcast := some (256/10), last_report_time := some 1600657321,
    pct_pm_data_last_1_hour := some 100, pct_pm_data_last_3_hours := some 100,
    pct_pm_data_nowcast := some 100, pct_pm_data_last_24_hours := some 100 }

theorem c1_saveArchive_fetchArchive_roundtrip_witness :
    (0 : ℤ) < 1600657320 ∧ readingQuoteFree roundTripReading = true ∧
    readingSixDec roundTripReading = true ∧
    (save_archive_reading [] 1600657320 roundTripReading =
      .ok [⟨RecordType.ARCHIVE, 1600657320, storedReading roundTripReading⟩] ∧
    fetch_archive_readings
      [⟨RecordType.ARCHIVE, 1600657320, storedReading roundTripReading⟩]
      0 none none = [roundTripReading]) :=
  ⟨by norm_num, by decide,
   by norm_num [readingSixDec, sixDec, roundTripReading],
   c1_saveArchive_fetchArchive_roundtrip 1600657320 roundTripReading
     (by norm_num) (by decide)
     (by norm_num [readingSixDec, sixDec, roundTripReading])⟩

/-! ## C2: saveCurrent replaces the current row -/

deriving instance DecidableEq for Except

lemma filterNonCurrent_no_current {db : List Row} {row : Row}
    (h : row ∈ db.filter (fun row => row.record_type ≠ RecordType.CURRENT)) :
    ¬row.record_type = RecordType.CURRENT := by
  simp only [List.mem_filter, decide_eq_true_eq] at h
  exact h.2

lemma filterNonCurrent_any_pk (db : List Row) (t : ℤ) :
    ((db.filter (fun row => row.record_type ≠ RecordType.CURRENT)).any
      (fun row => decide (row.record_type = RecordType.CURRENT) &&
        decide (row.timestamp = t))) = false := by
  rw [List.any_eq_false]
  intro row hrow
  simp only [Bool.and_eq_true, decide_eq_true_eq, not_and]
  intro hc
  exact absurd hc (filterNonCurrent_no_current hrow)

lemma filterNonCurrent_idem (db : List Row) :
    ((db.filter (fun row => row.record_type ≠ RecordType.CURRENT)).filter
      (fun row => row.record_type ≠ RecordType.CURRENT)) =
      db.filter (fun row => row.record_type ≠ RecordType.CURRENT) := by
  rw [List.filter_eq_self]
  intro row hrow
  simp only [decide_eq_true_eq]
  exact filterNonCurrent_no_current hrow

/-- **C2** (amended).  For readings with positive integer timestamps
whose string fields are quote-free and (for the surviving `R2`) whose
float fields are exact multiples of 10⁻⁶: from any store state,
`saveCurrent(R1)` then `saveCurrent(R2)` succeeds, `fetchCurrent()`
returns exactly `R2`, and exactly one Current row exists afterwards —
each `saveCurrent` deletes every existing Current row and inserts the
new one inside one transaction.  (The restrictions are forced by the
value formatting of C1 and by `fetch_current_readings` hard-coding
`timestamp > 0`.) -/
theorem c2_saveCurrent_twice_fetchCurrent (db : List Row) (r1 r2 : Reading)
    (t1 t2 : ℤ) (h1 : r1.ts = some t1) (h2 : r2.ts = some t2) (hpos : 0 < t2)
    (hq1 : readingQuoteFree r1 = true) (hq2 : readingQuoteFree r2 = true)
    (h6 : readingSixDec r2 = true) :
    ∃ db1 db2,
      save_current_reading db r1 = .ok db1 ∧
      save_current_reading db1 r2 = .ok db2 ∧
      fetch_current_readings db2 = [r2] ∧
      (db2.filter (fun row => row.record_type = RecordType.CURRENT)).length = 1 := by
  set rest := db.filter (fun row => row.record_type ≠ RecordType.CURRENT) with hrest
  refine ⟨rest ++ [⟨RecordType.CURRENT, t1, storedReading r1⟩],
    rest ++ [⟨RecordType.CURRENT, t2, storedReading r2⟩], ?_, ?_, ?_, ?_⟩
  · simp only [save_current_reading, h1, save_reading, if_pos rfl, hrest,
      execInsert, hq1, if_true]
    rw [filterNonCurrent_any_pk]
    simp
  · simp only [save_current_reading, h2, save_reading, if_pos rfl,
      hrest, List.filter_append, filterNonCurrent_idem]
    have hl : List.filter (fun row => decide ¬row.record_type = RecordType.CURRENT)
        [(⟨RecordType.CURRENT, t1, storedReading r1⟩ : Row)] = [] := by
      simp
    rw [hl, List.append_nil]
    simp only [execInsert, hq2, if_true]
    rw [filterNonCurrent_any_pk]
    simp
  · have hfil : List.filter (rowMatches RecordType.CURRENT 0 none)
        (rest ++ [⟨RecordType.CURRENT, t2, storedReading r2⟩]) =
        [⟨RecordType.CURRENT, t2, storedReading r2⟩] := by
      rw [List.filter_append]
      have h0 : List.filter (rowMatches RecordType.CURRENT 0 none) rest = [] := by
        rw [List.filter_eq_nil_iff]
        intro row hrow
        have hnc := filterNonCurrent_no_current hrow
        simp [rowMatches, hnc]
      rw [h0]
      simp [rowMatches, hpos]
    simp only [fetch_current_readings, fetch_readings, hfil]
    simp [List.insertionSort, List.orderedInsert, storedReading_eq_self h6]
  · rw [List.filter_append]
    have h0 : List.filter (fun row => decide (row.record_type = RecordType.CURRENT))
        rest = [] := by
      rw [List.filter_eq_nil_iff]
      intro row hrow
      simp only [decide_eq_true_eq]
      exact filterNonCurrent_no_current hrow
    rw [h0]
    simp

/-- A quote-free all-`none`-floats reading whose `ts` is 0. -/
def tsZeroReading : Reading :=
  { did := some "abc", name := some "foo", ts := some 0, lsid := none,
    data_structure_type := some 6, temp := none, hum := none, dew_point := none,
    wet_bulb := none, heat_index := none, pm_1_last := none, pm_2p5_last := none,
    pm_10_last := none, pm_1 := none, pm_2p5 := none,
    pm_2p5_last_1_hour := none, pm_2p5_last_3_hours := none,
    pm_2p5_last_24_hours := none, pm_2p5_nowcast := none, pm_10 := none,
    pm_10_last_1_hour := none, pm_10_last_3_hours := none,
    pm_10_last_24_hours := none, pm_10_nowcast := none, last_report_time := none,
    pct_pm_data_last_1_hour := none, pct_pm_data_last_3_hours := none,
    pct_pm_data_nowcast := none, pct_pm_data_last_24_hours := none }

/-- `tsZeroReading` with `ts = 5`, used as the first saved reading. -/
def tsFiveReading : Reading := { tsZeroReading with ts := some 5 }

/-- **C2** (counterexample).  With `R2.ts = 0` — an integer timestamp —
both saves succeed and exactly one Current row exists, but
`fetchCurrent()` returns the empty list, not `R2`, because
`fetch_current_readings` filters on `timestamp > 0`. -/
theorem c2_counterexample :
    (do
      let db1 ← save_current_reading [] tsFiveReading
      let db2 ← save_current_reading db1 tsZeroReading
      pure (fetch_current_readings db2)) = Except.ok ([] : List Reading) ∧
    ([] : List Reading) ≠ [tsZeroReading] := by
  constructor
  · decide
  · decide

theorem c2_saveCurrent_twice_fetchCurrent_witness :
    tsFiveReading.ts = some 5 ∧ roundTripReading.ts = some 1600657321 ∧
    (0 : ℤ) < 1600657321 ∧
    (∃ db1 db2,
      save_current_reading [] tsFiveReading = .ok db1 ∧
      save_current_reading db1 roundTripReading = .ok db2 ∧
      fetch_current_readings db2 = [roundTripReading] ∧
      (db2.filter (fun row => row.record_type = RecordType.CURRENT)).length = 1) :=
  ⟨by decide, by decide, by norm_num,
   c2_saveCurrent_twice_fetchCurrent [] tsFiveReading roundTripReading 5 1600657321
     (by decide) (by decide) (by norm_num) (by decide) (by decide)
     (by norm_num [readingSixDec, sixDec, roundTripReading])⟩

/-! ## C3: archive records are append-only -/

/-- `true` iff the store already holds an Archive row at timestamp `t`
(the primary-key test the INSERT runs into). -/
def dupArchiveAt (db : List Row) (t : ℤ) : Bool :=
  db.any (fun row => decide (row.record_type = RecordType.ARCHIVE) &&
    decide (row.timestamp = t))

/-- **C3** (confirmed).  Archive rows are append-only: `saveArchive(t, R)`
fails with a write error whenever an Archive row already exists at `t`
(`PRIMARY KEY (record_type, timestamp)`), and a successful
`save_reading` of either kind preserves every Archive row already in
the store — the only DELETE in the store layer targets
`record_type = CURRENT`, and the fetch operations are pure reads. -/
theorem c3_archive_append_only :
    (∀ (db : List Row) (t : ℤ) (r : Reading),
      dupArchiveAt db t = true → ∃ e, save_archive_reading db t r = .error e) ∧
    (∀ (db : List Row) (record_type : ℕ) (timestamp : ℤ) (r : Reading)
      (db' : List Row), save_reading db record_type timestamp r = .ok db' →
      ∀ row ∈ db, row.record_type = RecordType.ARCHIVE → row ∈ db') := by
  constructor
  · intro db t r hdup
    unfold save_archive_reading save_reading execInsert
    have harc : ¬(RecordType.ARCHIVE = RecordType.CURRENT) := by decide
    rw [if_neg harc]
    by_cases hq : readingQuoteFree r = true
    · rw [if_pos hq]
      unfold dupArchiveAt at hdup
      rw [if_pos hdup]
      exact ⟨DbError.pkConflict, rfl⟩
    · rw [if_neg hq]
      exact ⟨DbError.sqlSyntax, rfl⟩
  · intro db record_type timestamp r db' hok row hmem harch
    unfold save_reading execInsert at hok
    by_cases hq : readingQuoteFree r = true
    · rw [if_pos hq] at hok
      by_cases hrt : record_type = RecordType.CURRENT
      · rw [if_pos hrt] at hok
        split at hok
        · exact absurd hok (by simp)
        · have hdb' : db' =
              db.filter (fun row => row.record_type ≠ RecordType.CURRENT) ++
                [⟨record_type, timestamp, storedReading r⟩] := by
            injection hok with h
            exact h.symm
          subst hdb'
          refine List.mem_append_left _ ?_
          rw [List.mem_filter]
          refine ⟨hmem, ?_⟩
          simp only [decide_eq_true_eq]
          rw [harch]
          decide
      · rw [if_neg hrt] at hok
        split at hok
        · exact absurd hok (by simp)
        · have hdb' : db' = db ++ [⟨record_type, timestamp, storedReading r⟩] := by
            injection hok with h
            exact h.symm
          subst hdb'
          exact List.mem_append_left _ hmem
    · rw [if_neg hq] at hok
      exact absurd hok (by simp)

/-- An archive row at timestamp 100 wrapping `tsFiveReading`. -/
def archRow100 : Row := ⟨RecordType.ARCHIVE, 100, tsFiveReading⟩

theorem c3_archive_append_only_witness :
    (dupArchiveAt [archRow100] 100 = true ∧
      ∃ e, save_archive_reading [archRow100] 100 tsZeroReading = .error e) ∧
    (save_reading [archRow100] RecordType.CURRENT 5 tsFiveReading =
        .ok [archRow100, ⟨RecordType.CURRENT, 5, storedReading tsFiveReading⟩] ∧
      archRow100 ∈ [archRow100, ⟨RecordType.CURRENT, 5, storedReading tsFiveReading⟩]) :=
  ⟨⟨by decide, c3_archive_append_only.1 [archRow100] 100 tsZeroReading (by decide)⟩,
   ⟨by decide,
    c3_archive_append_only.2 [archRow100] RecordType.CURRENT 5 tsFiveReading
      [archRow100, ⟨RecordType.CURRENT, 5, storedReading tsFiveReading⟩]
      (by decide) archRow100 (by decide) (by decide)⟩⟩

/-! ## C4: the scheduler's archive tick -/

lemma pytrunc_of_nonneg {q : ℚ} (h : 0 ≤ q) : pytrunc q = ⌊q⌋ := by
  unfold pytrunc
  rw [if_neg (not_lt.mpr h)]

/-- **C4** (amended).  For a positive archive interval and
`now ≥ offset`, the scheduler's `next_arc_event` is the smallest value
of the form `k*arcint + offset` **strictly greater than `now`** (not
`now - pollInterval`), and the emitted event is Archive iff
`next_poll_event = next_arc_event`. -/
theorem c4_next_arc_tick_characterization (cfg : SchedulerCfg) (now : ℚ)
    (harc : 0 < cfg.arcint_secs) (hoff : cfg.pollfreq_offset ≤ now) :
    (∃ k : ℤ, next_arc_tick cfg now = k * cfg.arcint_secs + cfg.pollfreq_offset) ∧
    now < next_arc_tick cfg now ∧
    (∀ k : ℤ, now < k * cfg.arcint_secs + cfg.pollfreq_offset →
      next_arc_tick cfg now ≤ k * cfg.arcint_secs + cfg.pollfreq_offset) ∧
    ((compute_next_event cfg now).1 = Event.ARCHIVE ↔
      next_poll_tick cfg now = next_arc_tick cfg now) := by
  have hx : (0 : ℚ) ≤ (now - cfg.pollfreq_offset) / cfg.arcint_secs :=
    div_nonneg (by linarith) (le_of_lt harc)
  have htr : next_arc_tick cfg now =
      (⌊(now - cfg.pollfreq_offset) / cfg.arcint_secs⌋ + 1 : ℤ) * cfg.arcint_secs
        + cfg.pollfreq_offset := by
    unfold next_arc_tick
    rw [pytrunc_of_nonneg hx]
    push_cast
    ring
  refine ⟨⟨⌊(now - cfg.pollfreq_offset) / cfg.arcint_secs⌋ + 1, htr⟩, ?_, ?_, ?_⟩
  · rw [htr]
    have h1 : (now - cfg.pollfreq_offset) / cfg.arcint_secs <
        (⌊(now - cfg.pollfreq_offset) / cfg.arcint_secs⌋ + 1 : ℤ) := by
      push_cast
      exact Int.lt_floor_add_one _
    have h2 : now - cfg.pollfreq_offset <
        (⌊(now - cfg.pollfreq_offset) / cfg.arcint_secs⌋ + 1 : ℤ) * cfg.arcint_secs := by
      rw [div_lt_iff₀ harc] at h1
      linarith
    linarith
  · intro k hk
    rw [htr]
    have h1 : (now - cfg.pollfreq_offset) / cfg.arcint_secs < (k : ℚ) := by
      rw [div_lt_iff₀ harc]
      linarith
    have h2 : ⌊(now - cfg.pollfreq_offset) / cfg.arcint_secs⌋ < k :=
      Int.floor_lt.mpr h1
    have h3 : (⌊(now - cfg.pollfreq_offset) / cfg.arcint_secs⌋ + 1 : ℤ) ≤ k := h2
    have h4 : ((⌊(now - cfg.pollfreq_offset) / cfg.arcint_secs⌋ + 1 : ℤ) : ℚ) ≤ (k : ℚ) := by
      exact_mod_cast h3
    nlinarith [h4, harc]
  · unfold compute_next_event
    split
    · next h => simp [h]
    · next h => simp [h]

/-- **C4** (counterexample).  With the service's pinned configuration
(poll 5, offset 5, archive 60) at `now = 66`: the boundary
`1*60 + 5 = 65` is strictly greater than `now - pollInterval = 61`,
yet `next_arc_event = 125` — the code's tick is the smallest boundary
strictly greater than `now`, not than `now - pollInterval`, so the
claimed characterization picks 65 while the code computes 125. -/
theorem c4_counterexample :
    next_arc_tick serviceDefaultCfg 66 = 125 ∧
    (66 : ℚ) - serviceDefaultCfg.pollfreq_secs <
      (1 : ℤ) * serviceDefaultCfg.arcint_secs + serviceDefaultCfg.pollfreq_offset ∧
    ¬next_arc_tick serviceDefaultCfg 66 ≤
      (1 : ℤ) * serviceDefaultCfg.arcint_secs + serviceDefaultCfg.pollfreq_offset := by
  have h : next_arc_tick serviceDefaultCfg 66 = 125 := by
    unfold next_arc_tick serviceDefaultCfg pytrunc
    norm_num
  refine ⟨h, by norm_num [serviceDefaultCfg], by rw [h]; norm_num [serviceDefaultCfg]⟩

theorem c4_next_arc_tick_characterization_witness :
    (0 : ℚ) < serviceDefaultCfg.arcint_secs ∧
    serviceDefaultCfg.pollfreq_offset ≤ (63 : ℚ) ∧
    ((∃ k : ℤ, next_arc_tick serviceDefaultCfg 63 =
        k * serviceDefaultCfg.arcint_secs + serviceDefaultCfg.pollfreq_offset) ∧
      (63 : ℚ) < next_arc_tick serviceDefaultCfg 63 ∧
      (∀ k : ℤ, (63 : ℚ) < k * serviceDefaultCfg.arcint_secs + serviceDefaultCfg.pollfreq_offset →
        next_arc_tick serviceDefaultCfg 63 ≤
          k * serviceDefaultCfg.arcint_secs + serviceDefaultCfg.pollfreq_offset) ∧
      ((compute_next_event serviceDefaultCfg 63).1 = Event.ARCHIVE ↔
        next_poll_tick serviceDefaultCfg 63 = next_arc_tick serviceDefaultCfg 63)) :=
  ⟨by norm_num [serviceDefaultCfg], by norm_num [serviceDefaultCfg],
   c4_next_arc_tick_characterization serviceDefaultCfg 63
     (by norm_num [serviceDefaultCfg]) (by norm_num [serviceDefaultCfg])⟩

/-! ## C5: fetchArchive windowing -/

/-- The optional inclusive upper bound of the claim
(`AND timestamp <= max_ts`). -/
def clipMax (maxo : Option ℤ) (l : List Row) : List Row :=
  match maxo with
  | none => l
  | some m => l.filter (fun row => decide (row.timestamp ≤ m))

/-- The optional LIMIT of the claim. -/
def clipLimit (limo : Option ℕ) (l : List Reading) : List Reading :=
  match limo with
  | none => l
  | some L => l.take L

lemma filter_gt_of_sorted (l : List Row)
    (hp : l.Pairwise (fun a b => a.timestamp < b.timestamp)) :
    ∀ (k : ℕ) (hk : k < l.length),
    l.filter (fun b => decide ((l.get ⟨k, hk⟩).timestamp < b.timestamp)) =
      l.drop (k + 1) := by
  induction l with
  | nil => intro k hk; simp at hk
  | cons a tl ih =>
    intro k hk
    have h1 : ∀ b ∈ tl, a.timestamp < b.timestamp := (List.pairwise_cons.mp hp).1
    match k with
    | 0 =>
      simp only [List.get]
      rw [List.filter_cons]
      have hc : decide (a.timestamp < a.timestamp) = false := by simp
      rw [hc]
      simp only [List.drop_succ_cons, List.drop_zero, Bool.false_eq_true, if_false]
      rw [List.filter_eq_self]
      intro b hb
      simpa using h1 b hb
    | Nat.succ k =>
      simp only [List.length_cons] at hk
      simp only [List.get]
      rw [List.filter_cons]
      have hmem : tl.get ⟨k, by omega⟩ ∈ tl := List.get_mem tl k (by omega)
      have hlt : a.timestamp < (tl.get ⟨k, by omega⟩).timestamp := h1 _ hmem
      have hc : decide ((tl.get ⟨k, by omega⟩).timestamp < a.timestamp) = false := by
        simp only [decide_eq_false_iff_not]
        exact not_lt.mpr (le_of_lt hlt)
      rw [hc]
      simp only [List.drop_succ_cons, Bool.false_eq_true, if_false]
      exact ih ((List.pairwise_cons.mp hp).2) k (by omega)

/-- **C5** (confirmed).  For a store whose Archive rows sit at strictly
increasing timestamps, `fetchArchive(since = t_k)` returns exactly the
records after index `k`, in ascending (stored) order; a `max_ts` bound
keeps only timestamps `≤ max_ts` (inclusive); `limit = L` caps the
result, whose length is then `min L remaining`. -/
theorem c5_fetchArchive_window (rows : List Row)
    (hsort : rows.Pairwise (fun a b => a.timestamp < b.timestamp))
    (harch : ∀ row ∈ rows, row.record_type = RecordType.ARCHIVE)
    (k : ℕ) (hk : k < rows.length) :
    (∀ (maxo : Option ℤ) (limo : Option ℕ),
      fetch_archive_readings rows ((rows.get ⟨k, hk⟩).timestamp) maxo limo =
        clipLimit limo ((clipMax maxo (rows.drop (k + 1))).map Row.reading)) ∧
    (∀ L : ℕ,
      (fetch_archive_readings rows ((rows.get ⟨k, hk⟩).timestamp) none (some L)).length =
        min L (rows.drop (k + 1)).length) := by
  have hmain : ∀ (maxo : Option ℤ) (limo : Option ℕ),
      fetch_archive_readings rows ((rows.get ⟨k, hk⟩).timestamp) maxo limo =
        clipLimit limo ((clipMax maxo (rows.drop (k + 1))).map Row.reading) := by
    intro maxo limo
    unfold fetch_archive_readings fetch_readings
    have h1 : List.filter
        (rowMatches RecordType.ARCHIVE ((rows.get ⟨k, hk⟩).timestamp) maxo) rows =
        List.filter (fun row =>
          (match maxo with
           | some m => decide (row.timestamp ≤ m)
           | none => true) &&
          decide ((rows.get ⟨k, hk⟩).timestamp < row.timestamp)) rows := by
      apply List.filter_congr
      intro row hrow
      simp [rowMatches, harch row hrow, Bool.and_comm]
    rw [h1, ← List.filter_filter, filter_gt_of_sorted rows hsort k hk]
    have h2 : List.filter
        (fun row => match maxo with
          | some m => decide (row.timestamp ≤ m)
          | none => true) (rows.drop (k + 1)) = clipMax maxo (rows.drop (k + 1)) := by
      cases maxo with
      | none => simp [clipMax]
      | some m => simp [clipMax]
    rw [h2]
    have hps : (clipMax maxo (rows.drop (k + 1))).Pairwise
        (fun a b => a.timestamp < b.timestamp) := by
      have hd : (rows.drop (k + 1)).Pairwise (fun a b => a.timestamp < b.timestamp) :=
        hsort.drop
      cases maxo with
      | none => exact hd
      | some m => exact hd.filter _
    have hsorted : List.Sorted (fun a b : Row => a.timestamp ≤ b.timestamp)
        (clipMax maxo (rows.drop (k + 1))) :=
      hps.imp le_of_lt
    rw [List.Sorted.insertionSort_eq hsorted]
    cases limo with
    | none => simp [clipLimit]
    | some L => simp [clipLimit, List.map_take]
  refine ⟨hmain, ?_⟩
  intro L
  rw [hmain none (some L)]
  simp [clipLimit, clipMax, List.length_take]

/-- Three archive rows at timestamps 100 < 200 < 300. -/
def archRows3 : List Row :=
  [⟨RecordType.ARCHIVE, 100, tsFiveReading⟩,
   ⟨RecordType.ARCHIVE, 200, tsZeroReading⟩,
   ⟨RecordType.ARCHIVE, 300, roundTripReading⟩]

theorem c5_fetchArchive_window_witness :
    archRows3.Pairwise (fun a b => a.timestamp < b.timestamp) ∧
    (∀ row ∈ archRows3, row.record_type = RecordType.ARCHIVE) ∧
    ((∀ (maxo : Option ℤ) (limo : Option ℕ),
      fetch_archive_readings archRows3 ((archRows3.get ⟨0, by decide⟩).timestamp) maxo limo =
        clipLimit limo ((clipMax maxo (archRows3.drop 1)).map Row.reading)) ∧
    (∀ L : ℕ,
      (fetch_archive_readings archRows3 ((archRows3.get ⟨0, by decide⟩).timestamp)
          none (some L)).length = min L (archRows3.drop 1).length)) :=
  ⟨by decide, by decide,
   c5_fetchArchive_window archRows3 (by decide) (by decide) 0 (by decide)⟩

/-! ## C9: the archive-interval multiple check at startup -/

/-- **C9** (amended).  With both required options present and neither
`--test` nor `--dump` given, an archive interval that is not an exact
multiple of the poll interval (e.g. 65 and 10) makes startup fail with
`parser.error` before the `Service` is ever constructed: `startChecks`
returns an error, never `runService`.  (The claim's own example pair
(65, 5) is not an instance of the property: 65 *is* an exact multiple
of 5, so the check passes.) -/
theorem c9_arcint_multiple_fatal_at_startup (cfg : StartConfig)
    (h : String) (d : String) (hh : cfg.hostname = some h) (hd : cfg.db_file = some d)
    (hmul : cfg.arcint_secs % cfg.pollfreq_secs ≠ 0) :
    startChecks ⟨false, false⟩ cfg = .error .arcintNotMultiple := by
  unfold startChecks
  rw [hh, hd]
  simp [hmul]

/-- **C9** (counterexample).  `archiveInterval = 65`,
`pollInterval = 5`: since `65 % 5 = 0`, the pair the claim presents as
"not a multiple" passes the startup check and the service starts — the
claimed failure at construction does not happen for this input. -/
theorem c9_counterexample :
    (65 : ℤ) % 5 = 0 ∧
    startChecks ⟨false, false⟩ ⟨some "airlink", some "/tmp/db.sdb", 5, 65⟩ =
      .ok .runService := by
  constructor
  · decide
  · decide

theorem c9_arcint_multiple_fatal_at_startup_witness :
    (⟨some "airlink", some "/tmp/db.sdb", 10, 65⟩ : StartConfig).hostname = some "airlink" ∧
    (⟨some "airlink", some "/tmp/db.sdb", 10, 65⟩ : StartConfig).db_file = some "/tmp/db.sdb" ∧
    (65 : ℤ) % 10 ≠ 0 ∧
    startChecks ⟨false, false⟩ ⟨some "airlink", some "/tmp/db.sdb", 10, 65⟩ =
      .error .arcintNotMultiple :=
  ⟨rfl, rfl, by decide,
   c9_arcint_multiple_fatal_at_startup ⟨some "airlink", some "/tmp/db.sdb", 10, 65⟩
     "airlink" "/tmp/db.sdb" rfl rfl (by decide)⟩

/-! ## C6: a device-reported error yields NoReading without raising -/

lemma ok_bind {ε α β : Type} (a : α) (f : α → Except ε β) :
    (Except.ok a : Except ε α) >>= f = f a := rfl

lemma error_bind {ε α β : Type} (e : ε) (f : α → Except ε β) :
    (Except.error e : Except ε α) >>= f = .error e := rfl

lemma pure_eq_ok {ε α : Type} (a : α) : (pure a : Except ε α) = .ok a := rfl

lemma map_ok {ε α β : Type} (f : α → β) (a : α) :
    (f <$> (Except.ok a : Except ε α)) = .ok (f a) := rfl

lemma map_error {ε α β : Type} (f : α → β) (e : ε) :
    (f <$> (Except.error e : Except ε α)) = .error e := rfl

lemma getKey_ok_find? {l : List (String × JVal)} {k : String} {v : JVal}
    (h : (JVal.jobj l).getKey k = .ok v) :
    ∃ p, l.find? (fun q => q.1 == k) = some p ∧ p.2 = v := by
  rcases hf : l.find? (fun q => q.1 == k) with _ | p
  · rw [show (JVal.jobj l).getKey k = .error .keyError from by
      simp [JVal.getKey, hf]] at h
    exact absurd h (by simp)
  · refine ⟨p, hf, ?_⟩
    rw [show (JVal.jobj l).getKey k = .ok p.2 from by simp [JVal.getKey, hf]] at h
    injection h with h

lemma getKey_ok_any {l : List (String × JVal)} {k : String} {v : JVal}
    (h : (JVal.jobj l).getKey k = .ok v) :
    (l.any (fun p => p.1 == k)) = true := by
  obtain ⟨p, hfind, _⟩ := getKey_ok_find? h
  refine List.any_eq_true.mpr ⟨p, List.mem_of_find?_eq_some hfind, ?_⟩
  have := List.find?_some hfind
  exact this

/-- **C6** (confirmed).  A payload whose top-level `error` field is
non-null makes the fetch pipeline return NoReading, whatever the shape
of the error value: a well-formed error object is logged and dropped
(`Outcome.deviceError`); any other shape raises inside the try block
and is converted to NoReading at the catch boundary; no exception
reaches the caller (the result type is `Option Reading`, never an
unhandled `PyErr`). -/
theorem c6_error_field_yields_no_reading (now : ℚ) (l : List (String × JVal))
    (v : JVal) (hget : (JVal.jobj l).getKey "error" = .ok v) (hnn : v ≠ JVal.null) :
    collect_data_result now (JVal.jobj l) = none := by
  have hany : (l.any (fun p => p.1 == "error")) = true := getKey_ok_any hget
  obtain ⟨pr, hfind, hp2⟩ := getKey_ok_find? hget
  cases v with
  | null => exact absurd rfl hnn
  | jobj l2 =>
    rcases hc : l2.find? (fun q => q.1 == "code") with _ | pc
    · simp [collect_data_result, collectOutcome, collectBody, pyIn, hany,
        ok_bind, error_bind, pure_eq_ok, hfind, hp2, hc, JVal.getKey,
        outcomeToReading]
    · rcases hfa : pyFmtIntArg pc.2 with e3 | u
      · rcases hm : l2.find? (fun q => q.1 == "message") with _ | pm <;>
          simp [collect_data_result, collectOutcome, collectBody, pyIn, hany,
            ok_bind, error_bind, pure_eq_ok, hfind, hp2, hc, hm, hfa,
            JVal.getKey, outcomeToReading]
      · rcases hm : l2.find? (fun q => q.1 == "message") with _ | pm <;>
          simp [collect_data_result, collectOutcome, collectBody, pyIn, hany,
            ok_bind, error_bind, pure_eq_ok, hfind, hp2, hc, hm, hfa,
            JVal.getKey, outcomeToReading]
  | jbool b =>
    simp [collect_data_result, collectOutcome, collectBody, pyIn, hany,
      ok_bind, error_bind, pure_eq_ok, hfind, hp2, JVal.getKey, outcomeToReading]
  | jint n =>
    simp [collect_data_result, collectOutcome, collectBody, pyIn, hany,
      ok_bind, error_bind, pure_eq_ok, hfind, hp2, JVal.getKey, outcomeToReading]
  | jfloat q =>
    simp [collect_data_result, collectOutcome, collectBody, pyIn, hany,
      ok_bind, error_bind, pure_eq_ok, hfind, hp2, JVal.getKey, outcomeToReading]
  | jstr s =>
    simp [collect_data_result, collectOutcome, collectBody, pyIn, hany,
      ok_bind, error_bind, pure_eq_ok, hfind, hp2, JVal.getKey, outcomeToReading]
  | jarr l2 =>
    simp [collect_data_result, collectOutcome, collectBody, pyIn, hany,
      ok_bind, error_bind, pure_eq_ok, hfind, hp2, JVal.getKey, outcomeToReading]

theorem c6_error_field_yields_no_reading_witness :
    (JVal.jobj [("error", JVal.jstr "boom")]).getKey "error" = .ok (JVal.jstr "boom") ∧
    JVal.jstr "boom" ≠ JVal.null ∧
    collect_data_result 0 (JVal.jobj [("error", JVal.jstr "boom")]) = none :=
  ⟨rfl, by simp,
   c6_error_field_yields_no_reading 0 [("error", JVal.jstr "boom")]
     (JVal.jstr "boom") rfl (by simp)⟩

/-! ## C7: stale readings and boot artifacts are both discarded -/

/-- The two discard exits of the age check (monitor.py lines 427-452),
as a function of the `pm_1` value. -/
def staleOrBoot (pv : JVal) : Except PyErr Outcome :=
  match pv with
  | JVal.null => .ok Outcome.bootArtifact
  | _ => .ok Outcome.stale

/-- **C7** (confirmed).  For a payload that carries a null `error`
field, whose schema tag is not the legacy 5, that passes the sanity
check, and whose `last_report_time` is more than 60 seconds older than
the wall clock: if `pm_1` is present and non-null the pipeline takes
the *stale* branch (not the reboot branch), and if `pm_1` is null it
takes the *boot-heuristic* branch — in both branches the reading is
discarded and the caller sees NoReading. -/
theorem c7_stale_and_boot_discarded (now : ℚ) (l : List (String × JVal)) (t : ℤ)
    (dv pv : JVal)
    (herr : (JVal.jobj l).getKey "error" = .ok JVal.null)
    (hdst : getCond0Key (JVal.jobj l) "data_structure_type" = .ok dv)
    (hdst5 : dv.eqInt 5 = false)
    (hsane : is_sane (JVal.jobj l) = .ok (true, ""))
    (hlrt : getCond0Key (JVal.jobj l) "last_report_time" = .ok (JVal.jint t))
    (hage : now - (t : ℚ) > 60)
    (hpm : getCond0Key (JVal.jobj l) "pm_1" = .ok pv) :
    (pv ≠ JVal.null → collectOutcome now (JVal.jobj l) = Outcome.stale ∧
      collect_data_result now (JVal.jobj l) = none) ∧
    (pv = JVal.null → collectOutcome now (JVal.jobj l) = Outcome.bootArtifact ∧
      collect_data_result now (JVal.jobj l) = none) := by
  have hany : (l.any (fun p => p.1 == "error")) = true := getKey_ok_any herr
  have hbody : collectBody now (JVal.jobj l) = staleOrBoot pv := by
    simp only [collectBody, pyIn, hany, ok_bind, error_bind, pure_eq_ok, herr,
      hdst, hdst5, hsane, hlrt, hpm, pyToFloat, Bool.false_eq_true,
      if_false, if_true, hage, gt_iff_lt, if_pos, staleOrBoot]
    simp [hage]
  constructor
  · intro hne
    have hsv : staleOrBoot pv = Except.ok Outcome.stale := by
      cases pv with
      | null => exact absurd rfl hne
      | jbool b => rfl
      | jint n => rfl
      | jfloat q => rfl
      | jstr s => rfl
      | jarr l2 => rfl
      | jobj l2 => rfl
    rw [hsv] at hbody
    exact ⟨by simp [collectOutcome, hbody],
      by simp [collect_data_result, collectOutcome, hbody, outcomeToReading]⟩
  · intro heq
    subst heq
    rw [show staleOrBoot JVal.null = Except.ok Outcome.bootArtifact from rfl] at hbody
    exact ⟨by simp [collectOutcome, hbody],
      by simp [collect_data_result, collectOutcome, hbody, outcomeToReading]⟩

/-- A full wire-format payload (the monitor.py line-82 example) with a
chosen `pm_1` value and `last_report_time = 1600657321`. -/
def mkWirePayload (pm1 : JVal) : JVal := JVal.jobj
  [("data", JVal.jobj
    [("did", JVal.jstr "001D0A100214"), ("name", JVal.jstr "paloaltoweather.com"),
     ("ts", JVal.jint 1600657321),
     ("conditions", JVal.jarr [JVal.jobj
       [("lsid", JVal.jint 347825), ("data_structure_type", JVal.jint 6),
        ("temp", JVal.jfloat 74), ("hum", JVal.jfloat 62),
        ("dew_point", JVal.jfloat 60), ("wet_bulb", JVal.jfloat 64),
        ("heat_index", JVal.jfloat 74),
        ("pm_1_last", JVal.jint 11), ("pm_2p5_last", JVal.jint 14),
        ("pm_10_last", JVal.jint 17),
        ("pm_1", pm1), ("pm_2p5", JVal.jfloat 15),
        ("pm_2p5_last_1_hour", JVal.jfloat 19),
        ("pm_2p5_last_3_hours", JVal.jfloat 20),
        ("pm_2p5_last_24_hours", JVal.jfloat 18),
        ("pm_2p5_nowcast", JVal.jfloat 21),
        ("pm_10", JVal.jfloat 17),
        ("pm_10_last_1_hour", JVal.jfloat 23),
        ("pm_10_last_3_hours", JVal.jfloat 24),
        ("pm_10_last_24_hours", JVal.jfloat 22),
        ("pm_10_nowcast", JVal.jfloat 25),
        ("last_report_time", JVal.jint 1600657321),
        ("pct_pm_data_last_1_hour", JVal.jint 100),
        ("pct_pm_data_last_3_hours", JVal.jint 100),
        ("pct_pm_data_nowcast", JVal.jint 100),
        ("pct_pm_data_last_24_hours", JVal.jint 100)]])]),
   ("error", JVal.null)]

/-- The key list of `mkWirePayload pm1` (for instantiating C7). -/
def wireEntries (pm1 : JVal) : List (String × JVal) :=
  match mkWirePayload pm1 with
  | JVal.jobj l => l
  | _ => []

theorem c7_stale_and_boot_discarded_witness :
    (collectOutcome 1600657441 (mkWirePayload (JVal.jfloat 11)) = Outcome.stale ∧
      collect_data_result 1600657441 (mkWirePayload (JVal.jfloat 11)) = none) ∧
    (collectOutcome 1600657441 (mkWirePayload JVal.null) = Outcome.bootArtifact ∧
      collect_data_result 1600657441 (mkWirePayload JVal.null) = none) :=
  ⟨(c7_stale_and_boot_discarded 1600657441 (wireEntries (JVal.jfloat 11))
      1600657321 (JVal.jint 6) (JVal.jfloat 11) rfl rfl rfl rfl rfl
      (by norm_num) rfl).1 (by simp),
   (c7_stale_and_boot_discarded 1600657441 (wireEntries JVal.null)
      1600657321 (JVal.jint 6) JVal.null rfl rfl rfl rfl rfl
      (by norm_num) rfl).2 rfl⟩

/-! ## C8: the type-5 → type-6 schema upgrade -/

/-- A wire payload with `data_structure_type = 5` whose four `pm_10`
groups use the legacy `pm_10p0*` key names, all other fields present
and well-typed. -/
def mkPayload5 (did name : String) (ts lsid : ℤ)
    (temp hum dew_point wet_bulb heat_index : ℚ)
    (pm_1_last pm_2p5_last pm_10_last : ℤ)
    (pm_1 pm_2p5 p25h1 p25h3 p25h24 p25nc : ℚ)
    (leg legh1 legh3 legh24 legnc : ℚ)
    (lrt pct1 pct3 pctnc pct24 : ℤ) : JVal := JVal.jobj
  [("data", JVal.jobj
    [("did", JVal.jstr did), ("name", JVal.jstr name), ("ts", JVal.jint ts),
     ("conditions", JVal.jarr [JVal.jobj
       [("lsid", JVal.jint lsid), ("data_structure_type", JVal.jint 5),
        ("temp", JVal.jfloat temp), ("hum", JVal.jfloat hum),
        ("dew_point", JVal.jfloat dew_point), ("wet_bulb", JVal.jfloat wet_bulb),
        ("heat_index", JVal.jfloat heat_index),
        ("pm_1_last", JVal.jint pm_1_last), ("pm_2p5_last", JVal.jint pm_2p5_last),
        ("pm_10_last", JVal.jint pm_10_last),
        ("pm_1", JVal.jfloat pm_1), ("pm_2p5", JVal.jfloat pm_2p5),
        ("pm_2p5_last_1_hour", JVal.jfloat p25h1),
        ("pm_2p5_last_3_hours", JVal.jfloat p25h3),
        ("pm_2p5_last_24_hours", JVal.jfloat p25h24),
        ("pm_2p5_nowcast", JVal.jfloat p25nc),
        ("pm_10p0", JVal.jfloat leg),
        ("pm_10p0_last_1_hour", JVal.jfloat legh1),
        ("pm_10p0_last_3_hours", JVal.jfloat legh3),
        ("pm_10p0_last_24_hours", JVal.jfloat legh24),
        ("pm_10p0_nowcast", JVal.jfloat legnc),
        ("last_report_time", JVal.jint lrt),
        ("pct_pm_data_last_1_hour", JVal.jint pct1),
        ("pct_pm_data_last_3_hours", JVal.jint pct3),
        ("pct_pm_data_nowcast", JVal.jint pctnc),
        ("pct_pm_data_last_24_hours", JVal.jint pct24)]])]),
   ("error", JVal.null)]

/-- The `Reading` the normalizer produces for the upgraded payload:
the `pm_10` family carries the legacy `pm_10p0*` values. -/
def reading6OfArgs (did name : String) (ts lsid : ℤ)
    (temp hum dew_point wet_bulb heat_index : ℚ)
    (pm_1_last pm_2p5_last pm_10_last : ℤ)
    (pm_1 pm_2p5 p25h1 p25h3 p25h24 p25nc : ℚ)
    (leg legh1 legh3 legh24 legnc : ℚ)
    (lrt pct1 pct3 pctnc pct24 : ℤ) : Reading :=
  { did := some did, name := some name, ts := some ts, lsid := some lsid,
    data_structure_type := some 6, temp := some temp, hum := some hum,
    dew_point := some dew_point, wet_bulb := some wet_bulb,
    heat_index := some heat_index, pm_1_last := some pm_1_last,
    pm_2p5_last := some pm_2p5_last, pm_10_last := some pm_10_last,
    pm_1 := some pm_1, pm_2p5 := some pm_2p5,
    pm_2p5_last_1_hour := some p25h1, pm_2p5_last_3_hours := some p25h3,
    pm_2p5_last_24_hours := some p25h24, pm_2p5_nowcast := some p25nc,
    pm_10 := some leg, pm_10_last_1_hour := some legh1,
    pm_10_last_3_hours := some legh3, pm_10_last_24_hours := some legh24,
    pm_10_nowcast := some legnc, last_report_time := some lrt,
    pct_pm_data_last_1_hour := some pct1, pct_pm_data_last_3_hours := some pct3,
    pct_pm_data_nowcast := some pctnc, pct_pm_data_last_24_hours := some pct24 }

set_option maxHeartbeats 8000000 in
lemma c8_sane_aux (did name : String) (ts lsid : ℤ)
    (temp hum dew_point wet_bulb heat_index : ℚ)
    (pm_1_last pm_2p5_last pm_10_last : ℤ)
    (pm_1 pm_2p5 p25h1 p25h3 p25h24 p25nc : ℚ)
    (leg legh1 legh3 legh24 legnc : ℚ)
    (lrt pct1 pct3 pctnc pct24 : ℤ) :
    is_sane (convert_data_structure_type_5_to_6
      (mkPayload5 did name ts lsid temp hum dew_point wet_bulb heat_index
        pm_1_last pm_2p5_last pm_10_last pm_1 pm_2p5 p25h1 p25h3 p25h24 p25nc
        leg legh1 legh3 legh24 legnc lrt pct1 pct3 pctnc pct24)) = .ok (true, "") := by
  simp only [mkPayload5, convert_data_structure_type_5_to_6, convertPairs,
    convertGo, convStep, setCond0Key, getCond0Key, getCond0, JVal.getKey,
    JVal.setKey, JVal.getIdx, JVal.setIdx, is_sane, is_type, isinstance,
    JVal.eqInt, intFields, weatherFloatFields, pmFloatFields, missingMsg,
    List.find?, List.any, List.map, List.set, List.get?, List.length,
    ok_bind, error_bind, pure_eq_ok]
  rfl

set_option maxHeartbeats 8000000 in
lemma c8_populate_aux (did name : String) (ts lsid : ℤ)
    (temp hum dew_point wet_bulb heat_index : ℚ)
    (pm_1_last pm_2p5_last pm_10_last : ℤ)
    (pm_1 pm_2p5 p25h1 p25h3 p25h24 p25nc : ℚ)
    (leg legh1 legh3 legh24 legnc : ℚ)
    (lrt pct1 pct3 pctnc pct24 : ℤ) :
    populate_record (convert_data_structure_type_5_to_6
      (mkPayload5 did name ts lsid temp hum dew_point wet_bulb heat_index
        pm_1_last pm_2p5_last pm_10_last pm_1 pm_2p5 p25h1 p25h3 p25h24 p25nc
        leg legh1 legh3 legh24 legnc lrt pct1 pct3 pctnc pct24)) =
      .ok (reading6OfArgs did name ts lsid temp hum dew_point wet_bulb heat_index
        pm_1_last pm_2p5_last pm_10_last pm_1 pm_2p5 p25h1 p25h3 p25h24 p25nc
        leg legh1 legh3 legh24 legnc lrt pct1 pct3 pctnc pct24) := by
  simp only [mkPayload5, convert_data_structure_type_5_to_6, convertPairs,
    convertGo, convStep, setCond0Key, getCond0Key, getCond0, JVal.getKey,
    JVal.setKey, JVal.getIdx, JVal.setIdx, populate_record, tryGetKey, pyIn,
    JVal.asStrOpt, JVal.asIntOpt, JVal.asFloatOpt, reading6OfArgs,
    List.find?, List.any, List.map, List.set, List.get?, List.length,
    ok_bind, error_bind, pure_eq_ok]
  rfl

set_option maxHeartbeats 8000000 in
/-- **C8** (amended).  For every payload of the full wire shape — all
other required fields present and well-typed — with
`data_structure_type = 5` and the legacy `pm_10p0*` fields, the upgrade
rewrites the legacy values into the canonical `pm_10*` keys and sets
`data_structure_type` to 6; the upgraded payload passes the sanity
check, and the normalized `Reading`'s `pm_10` family equals the legacy
`pm_10p0` family values.  (A payload that merely carries
`data_structure_type = 5` and the legacy fields upgrades the same way
but need not pass the sanity check; see the counterexample.) -/
theorem c8_type5_upgrade_roundtrip (did name : String) (ts lsid : ℤ)
    (temp hum dew_point wet_bulb heat_index : ℚ)
    (pm_1_last pm_2p5_last pm_10_last : ℤ)
    (pm_1 pm_2p5 p25h1 p25h3 p25h24 p25nc : ℚ)
    (leg legh1 legh3 legh24 legnc : ℚ)
    (lrt pct1 pct3 pctnc pct24 : ℤ) :
    getCond0Key (convert_data_structure_type_5_to_6
      (mkPayload5 did name ts lsid temp hum dew_point wet_bulb heat_index
        pm_1_last pm_2p5_last pm_10_last pm_1 pm_2p5 p25h1 p25h3 p25h24 p25nc
        leg legh1 legh3 legh24 legnc lrt pct1 pct3 pctnc pct24))
      "data_structure_type" = .ok (JVal.jint 6) ∧
    getCond0Key (convert_data_structure_type_5_to_6
      (mkPayload5 did name ts lsid temp hum dew_point wet_bulb heat_index
        pm_1_last pm_2p5_last pm_10_last pm_1 pm_2p5 p25h1 p25h3 p25h24 p25nc
        leg legh1 legh3 legh24 legnc lrt pct1 pct3 pctnc pct24))
      "pm_10" = .ok (JVal.jfloat leg) ∧
    getCond0Key (convert_data_structure_type_5_to_6
      (mkPayload5 did name ts lsid temp hum dew_point wet_bulb heat_index
        pm_1_last pm_2p5_last pm_10_last pm_1 pm_2p5 p25h1 p25h3 p25h24 p25nc
        leg legh1 legh3 legh24 legnc lrt pct1 pct3 pctnc pct24))
      "pm_10_last_1_hour" = .ok (JVal.jfloat legh1) ∧
    getCond0Key (convert_data_structure_type_5_to_6
      (mkPayload5 did name ts lsid temp hum dew_point wet_bulb heat_index
        pm_1_last pm_2p5_last pm_10_last pm_1 pm_2p5 p25h1 p25h3 p25h24 p25nc
        leg legh1 legh3 legh24 legnc lrt pct1 pct3 pctnc pct24))
      "pm_10_last_3_hours" = .ok (JVal.jfloat legh3) ∧
    getCond0Key (convert_data_structure_type_5_to_6
      (mkPayload5 did name ts lsid temp hum dew_point wet_bulb heat_index
        pm_1_last pm_2p5_last pm_10_last pm_1 pm_2p5 p25h1 p25h3 p25h24 p25nc
        leg legh1 legh3 legh24 legnc lrt pct1 pct3 pctnc pct24))
      "pm_10_last_24_hours" = .ok (JVal.jfloat legh24) ∧
    getCond0Key (convert_data_structure_type_5_to_6
      (mkPayload5 did name ts lsid temp hum dew_point wet_bulb heat_index
        pm_1_last pm_2p5_last pm_10_last pm_1 pm_2p5 p25h1 p25h3 p25h24 p25nc
        leg legh1 legh3 legh24 legnc lrt pct1 pct3 pctnc pct24))
      "pm_10_nowcast" = .ok (JVal.jfloat legnc) ∧
    is_sane (convert_data_structure_type_5_to_6
      (mkPayload5 did name ts lsid temp hum dew_point wet_bulb heat_index
        pm_1_last pm_2p5_last pm_10_last pm_1 pm_2p5 p25h1 p25h3 p25h24 p25nc
        leg legh1 legh3 legh24 legnc lrt pct1 pct3 pctnc pct24)) = .ok (true, "") ∧
    populate_record (convert_data_structure_type_5_to_6
      (mkPayload5 did name ts lsid temp hum dew_point wet_bulb heat_index
        pm_1_last pm_2p5_last pm_10_last pm_1 pm_2p5 p25h1 p25h3 p25h24 p25nc
        leg legh1 legh3 legh24 legnc lrt pct1 pct3 pctnc pct24)) =
      .ok (reading6OfArgs did name ts lsid temp hum dew_point wet_bulb heat_index
        pm_1_last pm_2p5_last pm_10_last pm_1 pm_2p5 p25h1 p25h3 p25h24 p25nc
        leg legh1 legh3 legh24 legnc lrt pct1 pct3 pctnc pct24) := by
  refine ⟨?_, ?_, ?_, ?_, ?_, ?_,
    c8_sane_aux did name ts lsid temp hum dew_point wet_bulb heat_index
      pm_1_last pm_2p5_last pm_10_last pm_1 pm_2p5 p25h1 p25h3 p25h24 p25nc
      leg legh1 legh3 legh24 legnc lrt pct1 pct3 pctnc pct24,
    c8_populate_aux did name ts lsid temp hum dew_point wet_bulb heat_index
      pm_1_last pm_2p5_last pm_10_last pm_1 pm_2p5 p25h1 p25h3 p25h24 p25nc
      leg legh1 legh3 legh24 legnc lrt pct1 pct3 pctnc pct24⟩
  all_goals
    simp only [mkPayload5, convert_data_structure_type_5_to_6, convertPairs,
      convertGo, convStep, setCond0Key, getCond0Key, getCond0, JVal.getKey,
      JVal.setKey, JVal.getIdx, JVal.setIdx, List.find?, List.any, List.map,
      List.set, List.get?, List.length, ok_bind, error_bind, pure_eq_ok]
    rfl

/-- A payload carrying only `data_structure_type = 5` and the five
legacy `pm_10p0*` fields. -/
def legacyOnlyPayload : JVal := JVal.jobj
  [("error", JVal.null),
   ("data", JVal.jobj
     [("conditions", JVal.jarr [JVal.jobj
       [("data_structure_type", JVal.jint 5),
        ("pm_10p0", JVal.jfloat 2), ("pm_10p0_last_1_hour", JVal.jfloat 3),
        ("pm_10p0_last_3_hours", JVal.jfloat 4),
        ("pm_10p0_last_24_hours", JVal.jfloat 5),
        ("pm_10p0_nowcast", JVal.jfloat 6)]])])]

/-- **C8** (counterexample).  `legacyOnlyPayload` has
`data_structure_type = 5` and carries all five legacy `pm_10p0*`
groups; the upgrade duly rewrites them into the canonical keys and sets
the tag to 6 — yet the upgraded payload does **not** pass the sanity
check (it has no `name` field), refuting the claim that every such
payload validates successfully after the upgrade. -/
theorem c8_counterexample :
    getCond0Key (convert_data_structure_type_5_to_6 legacyOnlyPayload)
      "data_structure_type" = .ok (JVal.jint 6) ∧
    getCond0Key (convert_data_structure_type_5_to_6 legacyOnlyPayload)
      "pm_10" = .ok (JVal.jfloat 2) ∧
    is_sane (convert_data_structure_type_5_to_6 legacyOnlyPayload) =
      .ok (false, missingMsg "name") :=
  ⟨rfl, rfl, rfl⟩

/-! ## C10: query-string parameters split on commas, not ampersands -/

lemma pySplit_no_sep {sep : Char} : ∀ {xs : List Char}, sep ∉ xs →
    pySplit sep xs = [xs]
  | [], _ => rfl
  | c :: cs, h => by
    have hc : ¬c = sep := fun he => h (he ▸ List.mem_cons_self c cs)
    have hcs : sep ∉ cs := fun hm => h (List.mem_cons_of_mem c hm)
    rw [pySplit, pySplit_no_sep hcs]
    simp [hc]

lemma pySplit_append {sep : Char} : ∀ {xs : List Char} (ys : List Char), sep ∉ xs →
    pySplit sep (xs ++ sep :: ys) = xs :: pySplit sep ys
  | [], ys, _ => by
    simp only [List.nil_append]
    rw [pySplit]
    simp
  | c :: cs, ys, h => by
    have hc : ¬c = sep := fun he => h (he ▸ List.mem_cons_self c cs)
    have hcs : sep ∉ cs := fun hm => h (List.mem_cons_of_mem c hm)
    simp only [List.cons_append]
    rw [pySplit, pySplit_append ys hcs]
    simp [hc]

lemma mem_dropWhile_of_mem {p : Char → Bool} : ∀ {l : List Char} {c : Char},
    c ∈ l → p c = false → c ∈ l.dropWhile p
  | [], c, hc, _ => absurd hc (List.not_mem_nil c)
  | a :: as, c, hc, hp => by
    rw [List.dropWhile]
    rcases List.mem_cons.mp hc with he | hm
    · subst he
      rw [hp]
      exact List.mem_cons_self c as
    · cases ha : p a with
      | true => exact mem_dropWhile_of_mem hm hp
      | false => exact List.mem_cons_of_mem a hm

lemma mem_stripSpaces {l : List Char} {c : Char} (hc : c ∈ l)
    (hp : isPySpace c = false) : c ∈ stripSpaces l := by
  unfold stripSpaces
  rw [List.mem_reverse]
  apply mem_dropWhile_of_mem _ hp
  rw [List.mem_reverse]
  exact mem_dropWhile_of_mem hc hp

lemma digitsTail_chars : ∀ (l : List Char), digitsTail l = true →
    ∀ c ∈ l, c.isDigit = true ∨ c = '_'
  | [], _, c, hc => absurd hc (List.not_mem_nil c)
  | [c0], h, c, hc => by
    rw [digitsTail] at h
    rcases List.mem_cons.mp hc with he | hm
    · exact Or.inl (he ▸ h)
    · exact absurd hm (List.not_mem_nil c)
  | c0 :: c2 :: rest, h, c, hc => by
    rw [digitsTail] at h
    by_cases h0 : c0 = '_'
    · rw [if_pos h0] at h
      simp only [Bool.and_eq_true] at h
      rcases List.mem_cons.mp hc with he | hm
      · exact Or.inr (he.trans h0)
      · rcases List.mem_cons.mp hm with he2 | hm2
        · exact Or.inl (he2 ▸ h.1)
        · exact digitsTail_chars rest h.2 c hm2
    · rw [if_neg h0] at h
      simp only [Bool.and_eq_true] at h
      rcases List.mem_cons.mp hc with he | hm
      · exact Or.inl (he ▸ h.1)
      · exact digitsTail_chars (c2 :: rest) h.2 c hm

lemma digitsOk_chars {l : List Char} (h : digitsOk l = true) :
    ∀ c ∈ l, c.isDigit = true ∨ c = '_' := by
  intro c hc
  cases l with
  | nil => exact absurd hc (List.not_mem_nil c)
  | cons c0 rest =>
    rw [digitsOk] at h
    simp only [Bool.and_eq_true] at h
    rcases List.mem_cons.mp hc with he | hm
    · exact Or.inl (he ▸ h.1)
    · exact digitsTail_chars rest h.2 c hm

lemma pyIntParse_amp {s : List Char} (h : '&' ∈ s) : pyIntParse s = none := by
  have h1 : '&' ∈ stripSpaces s := mem_stripSpaces h (by decide)
  have hbad : ∀ l : List Char, '&' ∈ l → digitsOk l = false := by
    intro l hm
    cases hd : digitsOk l with
    | false => rfl
    | true =>
      rcases digitsOk_chars hd '&' hm with hdig | hund
      · exact absurd hdig (by decide)
      · exact absurd hund (by decide)
  rcases hst : stripSpaces s with _ | ⟨c, rest⟩
  · rw [hst] at h1
    exact absurd h1 (List.not_mem_nil _)
  · rw [hst] at h1
    simp only [pyIntParse, hst]
    by_cases hm : c = '-'
    · rw [if_pos hm]
      have hr : '&' ∈ rest := by
        rcases List.mem_cons.mp h1 with he | hmem
        · exact absurd (he.trans hm) (by decide)
        · exact hmem
      rw [hbad rest hr]
      simp
    · rw [if_neg hm]
      by_cases hp : c = '+'
      · rw [if_pos hp]
        have hr : '&' ∈ rest := by
          rcases List.mem_cons.mp h1 with he | hmem
          · exact absurd (he.trans hp) (by decide)
          · exact hmem
        rw [hbad rest hr]
        simp
      · rw [if_neg hp, hbad (c :: rest) h1]
        simp

lemma parse_args_amp_single_pair (v1 v2 : List Char)
    (h1c : ',' ∉ v1) (h1e : '=' ∉ v1)
    (h2c : ',' ∉ v2) (h2e : '=' ∉ v2) :
    parse_args ("since_ts=".data ++ v1 ++ "&max_ts=".data ++ v2) =
      [("since_ts".data, v1 ++ "&max_ts".data)] := by
  have hnotc : ',' ∉ ("since_ts=".data ++ v1 ++ "&max_ts=".data ++ v2) := by
    simp only [List.mem_append, not_or]
    exact ⟨⟨⟨by decide, h1c⟩, by decide⟩, h2c⟩
  have hsplitc : pySplit ',' ("since_ts=".data ++ v1 ++ "&max_ts=".data ++ v2) =
      [("since_ts=".data ++ v1 ++ "&max_ts=".data ++ v2)] := pySplit_no_sep hnotc
  have hargse : ("since_ts=".data ++ v1 ++ "&max_ts=".data ++ v2) =
      "since_ts".data ++ '=' :: ((v1 ++ "&max_ts".data) ++ '=' :: v2) := by
    rw [show "since_ts=".data = "since_ts".data ++ ['='] from by decide,
      show "&max_ts=".data = "&max_ts".data ++ ['='] from by decide]
    simp [List.append_assoc]
  have hnotev : '=' ∉ (v1 ++ "&max_ts".data) := by
    simp only [List.mem_append, not_or]
    exact ⟨h1e, by decide⟩
  have hsplite : pySplit '=' ("since_ts=".data ++ v1 ++ "&max_ts=".data ++ v2) =
      ["since_ts".data, v1 ++ "&max_ts".data, v2] := by
    rw [hargse, pySplit_append _ (by decide), pySplit_append _ hnotev,
      pySplit_no_sep h2e]
  have hconte : ("since_ts=".data ++ v1 ++ "&max_ts=".data ++ v2).contains '=' = true := by
    apply List.elem_eq_true_of_mem
    simp only [List.mem_append]
    exact Or.inl (Or.inl (Or.inl (by decide)))
  unfold parse_args
  rw [hsplitc]
  simp only [List.foldl_cons, List.foldl_nil, hconte, if_true, hsplite]
  simp [dictInsert]

/-- What `parse_requestline` produces for the `&`-separated exemplar. -/
def ampErrorRequest : Request :=
  Request.mk RequestType.ERROR none none none
    (some "The since_ts argument must be an integer, found: '1&max_ts'.".data)
    "/fetch-archive-records?since_ts=1&max_ts=9".data

/-- What `parse_requestline` produces for the comma-separated form. -/
def commaOkRequest : Request :=
  Request.mk RequestType.FETCH_ARCHIVE_RECORDS (some 1) (some 9) none none
    "/fetch-archive-records?since_ts=1,max_ts=9".data

/-- **C10** (confirmed).  The query server recognizes multiple
parameters only when separated by commas.  For every pair of
`&`-joined parameter values (free of the separator characters the
parser actually splits on), `parse_args` yields a single key/value
pair `since_ts ↦ v1&max_ts=...` truncated at the second `=`, and
`int()` on that value fails because of the `&`; on the exemplar request
`?since_ts=1&max_ts=9` the request line is classified ERROR with no
`since_ts`, while the comma-separated form `?since_ts=1,max_ts=9`
parses as FETCH_ARCHIVE_RECORDS with `since_ts = 1`, `max_ts = 9`. -/
theorem c10_amp_separated_args_rejected (v1 v2 : List Char)
    (h1c : ',' ∉ v1) (h1e : '=' ∉ v1) (h2c : ',' ∉ v2) (h2e : '=' ∉ v2) :
    parse_args ("since_ts=".data ++ v1 ++ "&max_ts=".data ++ v2) =
      [("since_ts".data, v1 ++ "&max_ts".data)] ∧
    pyIntParse (v1 ++ "&max_ts".data) = none ∧
    (∃ req, parse_requestline
        "GET /fetch-archive-records?since_ts=1&max_ts=9 HTTP/1.1".data =
        some req ∧ req.request_type = RequestType.ERROR ∧ req.since_ts = none) ∧
    (∃ req2, parse_requestline
        "GET /fetch-archive-records?since_ts=1,max_ts=9 HTTP/1.1".data =
        some req2 ∧ req2.request_type = RequestType.FETCH_ARCHIVE_RECORDS ∧
        req2.since_ts = some 1 ∧ req2.max_ts = some 9 ∧ req2.limit = none) := by
  refine ⟨parse_args_amp_single_pair v1 v2 h1c h1e h2c h2e, ?_, ?_, ?_⟩
  · apply pyIntParse_amp
    simp only [List.mem_append]
    exact Or.inr (by decide)
  · exact ⟨ampErrorRequest, by decide, rfl, rfl⟩
  · exact ⟨commaOkRequest, by decide, rfl, rfl, rfl, rfl⟩

theorem c10_amp_separated_args_rejected_witness :
    (',' ∉ "1".data ∧ '=' ∉ "1".data ∧ ',' ∉ "9".data ∧ '=' ∉ "9".data) ∧
    (parse_args ("since_ts=".data ++ "1".data ++ "&max_ts=".data ++ "9".data) =
      [("since_ts".data, "1".data ++ "&max_ts".data)] ∧
    pyIntParse ("1".data ++ "&max_ts".data) = none ∧
    (∃ req, parse_requestline
        "GET /fetch-archive-records?since_ts=1&max_ts=9 HTTP/1.1".data =
        some req ∧ req.request_type = RequestType.ERROR ∧ req.since_ts = none) ∧
    (∃ req2, parse_requestline
        "GET /fetch-archive-records?since_ts=1,max_ts=9 HTTP/1.1".data =
        some req2 ∧ req2.request_type = RequestType.FETCH_ARCHIVE_RECORDS ∧
        req2.since_ts = some 1 ∧ req2.max_ts = some 9 ∧ req2.limit = none)) :=
  ⟨⟨by decide, by decide, by decide, by decide⟩,
   c10_amp_separated_args_rejected "1".data "9".data
     (by decide) (by decide) (by decide) (by decide)⟩


end AirlinkProxy
